import Mathlib

/-!
# Epoch init system: object execution and runlevel sweeps (`src/parse.c`)

A shallow embedding of `ExecuteConfigObject`, `ProcessConfigObject`,
`RunAllObjects` and `SwitchRunlevels`.

* An object of the table (`ObjTable *`) is passed as a handle (`ref`, its
  position in the chain) together with the record it points at; the function
  returns the record as the C code leaves it.
* The process-wide globals of `parse.c` live in `Sys`, next to a trace of the
  calls the code makes to the operating system and to its collaborators.
* What the operating system and the functions declared in `epoch.h` answer is
  read from an environment `Env`; every answer may depend on the state (and
  so on the whole history) at the moment of the call.
* The model follows the thread that makes the call. A detached thread
  (`NoWait`) appears as the event `pthread_create`; what that thread does
  later, concurrently, is not part of the result of the call.
* Pids and counters are natural numbers: a child pid is a positive `pid_t`,
  so the one or two increments of `ObjectPID` cannot wrap, and
  `RunningChildCount` is decremented only after it was incremented. What
  `kill` receives is the pid converted to `pid_t` (`toPidT`).
* Texts are strings without a terminating `NUL`; a copy through `snprintf`
  keeps what fits the buffer.
-/

namespace Epoch

/-- Return status `rStatus` (declared in `epoch.h`). -/
inductive rStatus where
  | FAILURE
  | SUCCESS
  | WARNING
  | NOTIFICATION
  deriving DecidableEq

/-- Values of `Opts.StopMode`, as used by the `switch` of `ProcessConfigObject`. -/
inductive StopMode where
  | STOP_NONE
  | STOP_INVALID
  | STOP_COMMAND
  | STOP_PID
  | STOP_PIDFILE
  deriving DecidableEq

/-- Values of `CurrentBootMode`. -/
inductive BootMode where
  | BOOT_NEUTRAL
  | BOOT_BOOTUP
  | BOOT_SHUTDOWN
  deriving DecidableEq

/-- The `Opts` member of an object, with the fields `parse.c` reads. -/
structure ObjOpts where
  NoWait : Bool
  IsService : Bool
  HaltCmdOnly : Bool
  RawDescription : Bool
  CanStop : Bool
  StopMode : StopMode
  deriving DecidableEq

/-- One node of the object table (`ObjTable`), with the fields `parse.c` uses.
`ObjectRunlevels` is the membership data that only `ObjRL_CheckRunlevel` reads. -/
structure ObjTable where
  ObjectID : String
  ObjectDescription : String
  ObjectStartCommand : String
  ObjectStopCommand : String
  ObjectStartPriority : Nat
  ObjectStopPriority : Nat
  ObjectPID : Nat
  Enabled : Bool
  Started : Bool
  Opts : ObjOpts
  ObjectRunlevels : List String
  deriving DecidableEq

/-- Calls that leave the functions of `parse.c`, in the order they are made. -/
inductive Event where
  | SpitWarning (msg : String)
  | SpitError (msg : String)
  | EmergencyShell
  | sigmask (block : Bool)
  | fork (pid : Int)
  | setsid
  | execlp (shell : String) (cmd : String)
  | waitpid (pid : Int) (raw : Int)
  | AdvancedPIDFind (ref : Nat) (seed : Nat)
  | printf (text : String)
  | fflush
  | PerformStatusReport (text : String) (st : rStatus)
  | ReadPIDFile (ref : Nat) (pid : Nat)
  | kill (pid : Int) (delivered : Bool)
  | pthread_create (ref : Nat)
  deriving DecidableEq

/-- The slot `CurrentTask` (`struct _CTask`): `Node` is `none` for `NULL`. -/
structure CTask where
  Node : Option Nat
  PID : Int
  deriving DecidableEq

/-- The globals of `parse.c`, the function-local `static Bool DidWarn`, and the
trace of outgoing calls. -/
structure Sys where
  CurRunlevel : String
  RunningChildCount : Nat
  CurrentTask : CTask
  CurrentBootMode : BootMode
  DidWarn : Bool
  trace : List Event
  deriving DecidableEq

/-- Append one outgoing call to the trace. -/
def Sys.log (s : Sys) (e : Event) : Sys :=
  { s with trace := s.trace ++ [e] }

/-- What `parse.c` takes from outside: the declarations of `epoch.h` that are
not part of these sources, and the answers of the operating system.

* `rStatusValue`: the integer value of each enumerator of `rStatus`
  (`parse.c` tests a status with `ExitStatus ? ... : ...`).
* `MAX_DESCRIPT_SIZE`: the size of the buffer `CurRunlevel`.
* `fopen path`: whether `fopen(path, "r")` succeeds.
* `fork`: the value `vfork()` (or `fork()`) returns.
* `execlp`: whether `execlp` replaces the image of the child.
* `waitpid pid`: the raw status `waitpid` stores.
* `AdvancedPIDFind`: the `ObjectPID` this collaborator leaves in the object.
* `ReadPIDFile`: the pid read from the pid file, `0` when it cannot be read.
* `kill pid`: whether `kill(pid, SIGTERM)` returns `0`, for the `pid_t` value
  `pid` the call receives.
* `GetHighestPriority`, `GetObjectByPriority`, `ObjRL_CheckRunlevel`: the
  table lookups; `GetObjectByPriority` answers with a handle, its first
  argument is `none` for `NULL`. -/
structure Env where
  rStatusValue : rStatus → Int
  MAX_DESCRIPT_SIZE : Nat
  fopen : Sys → String → Bool
  fork : Sys → Int
  execlp : Sys → String → String → Bool
  waitpid : Sys → Int → Int
  AdvancedPIDFind : Sys → ObjTable → Nat
  ReadPIDFile : Sys → ObjTable → Nat
  kill : Sys → Int → Bool
  GetHighestPriority : List ObjTable → Bool → Nat
  GetObjectByPriority : List ObjTable → Option String → Bool → Nat → Option Nat
  ObjRL_CheckRunlevel : String → ObjTable → Bool

/-- How a call ends: it returns a status to its caller (`ret`), or control is
lost to `EmergencyShell` after a failed `vfork` (`emergency`), or the call is
running in the forked child, which is replaced by the command or leaves with
`return -1` (`child`). -/
inductive Ctl where
  | ret (st : rStatus)
  | emergency
  | child
  deriving DecidableEq

/-- The text `snprintf(buf, size, "%s", text)` leaves in `buf` (for `size ≥ 1`):
at most `size - 1` characters. -/
def snprintf (size : Nat) (text : String) : String :=
  String.mk (text.data.take (size - 1))

/-- `FileUsable`: the file can be opened for reading. -/
def FileUsable (env : Env) (s : Sys) (FileName : String) : Bool :=
  env.fopen s FileName

/-- The locals `ShellPath` and `ShellDissolves` of `ExecuteConfigObject`. -/
structure Shell where
  ShellPath : String
  ShellDissolves : Bool
  deriving DecidableEq

/-- Text of the warning given when no known shell is found. -/
def noShellWarning : String :=
  "No known shell found. Using /bin/sh.\n" ++
  "Best if you install one of these: bash, dash, csh, zsh, or busybox.\n" ++
  "This matters because PID detection is affected by the way shells handle sh -c."

/-- The shell probe at the head of `ExecuteConfigObject` (lines 75-116, built
without `WEIRDSHELLPERMITTED`). -/
def resolveShell (env : Env) (s : Sys) : Shell × Sys :=
  if FileUsable env s "/bin/bash" then (⟨"bash", true⟩, s)
  else if FileUsable env s "/bin/dash" then (⟨"dash", true⟩, s)
  else if FileUsable env s "/bin/zsh" then (⟨"zsh", true⟩, s)
  else if FileUsable env s "/bin/csh" then (⟨"csh", true⟩, s)
  else if FileUsable env s "/bin/busybox" then (⟨"busybox", false⟩, s)
  else if s.DidWarn then (⟨"sh", false⟩, s)
  else (⟨"sh", false⟩, ({ s with DidWarn := true }).log (.SpitWarning noShellWarning))

/-- The macro `WEXITSTATUS` of `<sys/wait.h>`: `(status & 0xff00) >> 8`. -/
def WEXITSTATUS (status : Int) : Int :=
  (status / 256) % 256

/-- The `switch` on the exit status at the end of `ExecuteConfigObject`. -/
def classifyExit (code : Int) : rStatus :=
  if code = 128 then .WARNING
  else if code = -1 then .WARNING
  else if code = 0 then .SUCCESS
  else .FAILURE

/-- Parent, right after the fork (lines 140-153): count the child, record the
task unless the object is `NoWait`, unblock the signals. -/
def parentAfterFork (s : Sys) (ref : Nat) (InObj : ObjTable) (LaunchPID : Int) : Sys :=
  let s1 := { s with RunningChildCount := s.RunningChildCount + 1 }
  let s2 := if InObj.Opts.NoWait then s1
            else { s1 with CurrentTask := ⟨some ref, LaunchPID⟩ }
  s2.log (.sigmask false)

/-- Parent, after `waitpid` returned (lines 185-191). -/
def parentAfterWait (s : Sys) (InObj : ObjTable) : Sys :=
  let s1 := { s with RunningChildCount := s.RunningChildCount - 1 }
  if InObj.Opts.NoWait then s1 else { s1 with CurrentTask := ⟨none, 0⟩ }

/-- The first guess of the pid of the command (lines 193-202). -/
def pidSeed (LaunchPID : Int) (sh : Shell) (InObj : ObjTable) : Nat :=
  LaunchPID.toNat + (if sh.ShellDissolves then 0 else 1) + (if InObj.Opts.IsService then 1 else 0)

/-- The child branch (lines 155-180): default signal handling, unblock, new
session, `execlp`; when `execlp` fails, an error and `return -1`. -/
def childPath (env : Env) (s : Sys) (sh : Shell) (InObj : ObjTable) (CurCmd : String) : Sys :=
  let s1 := ((s.log (.sigmask false)).log .setsid).log (.execlp sh.ShellPath CurCmd)
  if env.execlp s1 sh.ShellPath CurCmd then s1
  else s1.log (.SpitError (snprintf 1024
    ("Failed to execute " ++ InObj.ObjectID ++ ": execlp() failure.")))

/-- Parent, from the fork to the `return` (lines 140-153 and 184-224): wait
for the child, store the guessed pid, let `AdvancedPIDFind` correct it, and
classify the exit status. -/
def parentPath (env : Env) (s : Sys) (sh : Shell) (ref : Nat) (InObj : ObjTable)
    (LaunchPID : Int) : Ctl × ObjTable × Sys :=
  let s4 := parentAfterFork s ref InObj LaunchPID
  let RawExitStatus := env.waitpid s4 LaunchPID
  let s5 := parentAfterWait (s4.log (.waitpid LaunchPID RawExitStatus)) InObj
  let seeded := { InObj with ObjectPID := pidSeed LaunchPID sh InObj }
  let s6 := s5.log (.AdvancedPIDFind ref seeded.ObjectPID)
  let found := { seeded with ObjectPID := env.AdvancedPIDFind s6 seeded }
  (.ret (classifyExit (WEXITSTATUS RawExitStatus)), found, s6)

/-- The state in which `ExecuteConfigObject` forks: shell probed, signals blocked. -/
def forkState (env : Env) (s : Sys) : Sys :=
  (resolveShell env s).2.log (.sigmask true)

/-- The function `ExecuteConfigObject` of `parse.c`. -/
def ExecuteConfigObject (env : Env) (s : Sys) (ref : Nat) (InObj : ObjTable)
    (IsStartingMode : Bool) : Ctl × ObjTable × Sys :=
  let CurCmd := if IsStartingMode then InObj.ObjectStartCommand else InObj.ObjectStopCommand
  let sh := (resolveShell env s).1
  let s2 := forkState env s
  let LaunchPID := env.fork s2
  let s3 := s2.log (.fork LaunchPID)
  if LaunchPID < 0 then
    (.emergency, InObj,
      (s3.log (.SpitError "Failed to call vfork(). This is a critical error.")).log
        .EmergencyShell)
  else if LaunchPID = 0 then
    (.child, InObj, childPath env s3 sh InObj CurCmd)
  else
    parentPath env s3 sh ref InObj LaunchPID

/-- The function `IndependentExecuteObject` of `parse.c`, body of the detached
thread: the launcher in start mode, its status dropped. -/
def IndependentExecuteObject (env : Env) (s : Sys) (ref : Nat) (InObj : ObjTable) :
    ObjTable × Sys :=
  (ExecuteConfigObject env s ref InObj true).2

/-- The text copied into `PrintOutStream` (lines 240-255). -/
def PrintOutStream (CurObj : ObjTable) (IsStartingMode : Bool) : String :=
  if CurObj.Opts.RawDescription then snprintf 1024 CurObj.ObjectDescription
  else if IsStartingMode && CurObj.Opts.NoWait then
    snprintf 1024 ("Launching process for" ++ " " ++ CurObj.ObjectDescription)
  else if !IsStartingMode && CurObj.Opts.HaltCmdOnly then
    snprintf 1024 ("Starting" ++ " " ++ CurObj.ObjectDescription)
  else
    snprintf 1024 ((if IsStartingMode then "Starting" else "Stopping") ++ " " ++
      CurObj.ObjectDescription)

/-- The C test `ExitStatus ? a : b` on a status. -/
def truthy (env : Env) (st : rStatus) : Bool :=
  decide (env.rStatusValue st ≠ 0)

/-- `PerformStatusReport(PrintOutStream, st, true)` when `PrintStatus` is set. -/
def reportIf (PrintStatus : Bool) (s : Sys) (CurObj : ObjTable) (IsStartingMode : Bool)
    (st : rStatus) : Sys :=
  if PrintStatus then s.log (.PerformStatusReport (PrintOutStream CurObj IsStartingMode) st)
  else s

/-- `printf("%s", PrintOutStream)` when `PrintStatus` is set. -/
def printIf (PrintStatus : Bool) (s : Sys) (CurObj : ObjTable) (IsStartingMode : Bool) : Sys :=
  if PrintStatus then s.log (.printf (PrintOutStream CurObj IsStartingMode)) else s

/-- The conversion of an `unsigned long` to `pid_t`, a signed integer of 32
bits, made when `kill` is called: the low 32 bits are kept and read in two's
complement. A pid below `2^31` is handed over unchanged. -/
def toPidT (n : Nat) : Int :=
  if n % 4294967296 < 2147483648 then ((n % 4294967296 : Nat) : Int)
  else ((n % 4294967296 : Nat) : Int) - 4294967296

/-- The stop branch `STOP_PID` and the tail of `STOP_PIDFILE`: the call
`kill(pid, SIGTERM)`, which converts `pid` to `pid_t`; then set `Started` from
the status, report. -/
def killAndMark (env : Env) (s : Sys) (CurObj : ObjTable) (pid : Nat) (PrintStatus : Bool) :
    Ctl × ObjTable × Sys :=
  let delivered := env.kill s (toPidT pid)
  let s1 := s.log (.kill (toPidT pid) delivered)
  let ExitStatus := if delivered then rStatus.SUCCESS else rStatus.FAILURE
  let obj := { CurObj with Started := if truthy env ExitStatus then false else true }
  (.ret ExitStatus, obj, reportIf PrintStatus s1 CurObj false ExitStatus)

/-- The function `ProcessConfigObject` of `parse.c`. -/
def ProcessConfigObject (env : Env) (s : Sys) (ref : Nat) (CurObj : ObjTable)
    (IsStartingMode PrintStatus : Bool) : Ctl × ObjTable × Sys :=
  if IsStartingMode && decide (CurObj.ObjectStartCommand = "") then
    (.ret .SUCCESS, CurObj, s)
  else if IsStartingMode && CurObj.Opts.HaltCmdOnly then
    (.ret .FAILURE, CurObj, reportIf PrintStatus s CurObj IsStartingMode .FAILURE)
  else if IsStartingMode then
    let s1 := (printIf PrintStatus s CurObj IsStartingMode).log .fflush
    if CurObj.Opts.NoWait then
      let s2 := s1.log (.pthread_create ref)
      let ExitStatus := rStatus.NOTIFICATION
      let obj := { CurObj with Started := if truthy env ExitStatus then true else false }
      (.ret ExitStatus, obj, reportIf PrintStatus s2 CurObj IsStartingMode ExitStatus)
    else
      match ExecuteConfigObject env s1 ref CurObj IsStartingMode with
      | (.ret ExitStatus, obj, s2) =>
        (.ret ExitStatus, { obj with Started := if truthy env ExitStatus then true else false },
          reportIf PrintStatus s2 CurObj IsStartingMode ExitStatus)
      | stopped => stopped
  else
    match CurObj.Opts.StopMode with
    | .STOP_COMMAND =>
      let s1 := if PrintStatus then (printIf PrintStatus s CurObj IsStartingMode).log .fflush
                else s
      match ExecuteConfigObject env s1 ref CurObj IsStartingMode with
      | (.ret ExitStatus, obj, s2) =>
        (.ret ExitStatus, { obj with Started := if truthy env ExitStatus then false else true },
          reportIf PrintStatus s2 CurObj IsStartingMode ExitStatus)
      | stopped => stopped
    | .STOP_INVALID => (.ret .FAILURE, CurObj, s)
    | .STOP_NONE => (.ret .SUCCESS, { CurObj with Started := false }, s)
    | .STOP_PID =>
      let s1 := if PrintStatus then (printIf PrintStatus s CurObj IsStartingMode).log .fflush
                else s
      killAndMark env s1 CurObj CurObj.ObjectPID PrintStatus
    | .STOP_PIDFILE =>
      let s1 := if PrintStatus then (printIf PrintStatus s CurObj IsStartingMode).log .fflush
                else s
      let TruePID := env.ReadPIDFile s1 CurObj
      let s2 := s1.log (.ReadPIDFile ref TruePID)
      if TruePID = 0 ∧ PrintStatus = true then
        (.ret .FAILURE, CurObj, reportIf PrintStatus s2 CurObj IsStartingMode .FAILURE)
      else
        killAndMark env s2 CurObj TruePID PrintStatus

/-- One call of `ProcessConfigObject` made by a sweep: the loop counter at the
call, the object, the direction, and the value of `CurRunlevel` at the call. -/
structure Call where
  priority : Nat
  ref : Nat
  IsStartingMode : Bool
  CurRunlevel : String
  deriving DecidableEq

/-- The state the sweeps work on: the globals, the chain `ObjectTable` (every
node, the last one being the node whose `Next` is `NULL`), and a record of
the calls of `ProcessConfigObject` made so far (kept for the proofs only). -/
structure World where
  sys : Sys
  ObjectTable : List ObjTable
  calls : List Call
  deriving DecidableEq

/-- The object `GetObjectByPriority` points at, with its handle; a handle
outside the table is no object (`NULL`). -/
def objectAt (env : Env) (w : World) (rl : Option String) (IsStartingMode : Bool)
    (priority : Nat) : Option (Nat × ObjTable) :=
  match env.GetObjectByPriority w.ObjectTable rl IsStartingMode priority with
  | none => none
  | some ref =>
    match w.ObjectTable[ref]? with
    | none => none
    | some obj => some (ref, obj)

/-- The call `ProcessConfigObject(obj, IsStartingMode, true)` of a sweep, on the
object behind `ref`: the object is updated in place and the call is recorded.
The answer is `none` when the call returned, whatever its status. -/
def callProcess (env : Env) (w : World) (priority ref : Nat) (obj : ObjTable)
    (IsStartingMode : Bool) : Option Ctl × World :=
  let r := ProcessConfigObject env w.sys ref obj IsStartingMode true
  let w1 : World :=
    { sys := r.2.2
      ObjectTable := w.ObjectTable.set ref r.2.1
      calls := w.calls ++ [⟨priority, ref, IsStartingMode, w.sys.CurRunlevel⟩] }
  match r.1 with
  | .ret _ => (none, w1)
  | c => (some c, w1)

/-- A `for` loop over the priorities in `ps`; it ends early only when control
does not come back from a call. -/
def sweep (body : World → Nat → Option Ctl × World) : List Nat → World → Option Ctl × World
  | [], w => (none, w)
  | p :: ps, w =>
    match body w p with
    | (none, w1) => sweep body ps w1
    | (some c, w1) => (some c, w1)

/-- Body of the loop of `RunAllObjects` (lines 404-422). -/
def runAllBody (env : Env) (IsStartingMode : Bool) (w : World) (Inc : Nat) :
    Option Ctl × World :=
  match objectAt env w (if IsStartingMode then some w.sys.CurRunlevel else none)
      IsStartingMode Inc with
  | none => (none, w)
  | some (ref, CurObj) =>
    if !CurObj.Enabled && (IsStartingMode || CurObj.Opts.HaltCmdOnly) then (none, w)
    else if IsStartingMode && CurObj.Opts.HaltCmdOnly then (none, w)
    else if (if IsStartingMode then !CurObj.Started else CurObj.Started) then
      callProcess env w Inc ref CurObj IsStartingMode
    else (none, w)

/-- Set `CurrentBootMode`. -/
def World.setBootMode (w : World) (m : BootMode) : World :=
  { w with sys := { w.sys with CurrentBootMode := m } }

/-- The function `RunAllObjects` of `parse.c`. -/
def RunAllObjects (env : Env) (w : World) (IsStartingMode : Bool) : Ctl × World :=
  let MaxPriority := env.GetHighestPriority w.ObjectTable IsStartingMode
  if MaxPriority = 0 ∧ IsStartingMode = true then
    (.ret .FAILURE,
      { w with sys := w.sys.log (.SpitError "All objects have a priority of zero!") })
  else
    let w1 := w.setBootMode (if IsStartingMode then .BOOT_BOOTUP else .BOOT_SHUTDOWN)
    match sweep (runAllBody env IsStartingMode) (List.range' 1 MaxPriority) w1 with
    | (some c, w2) => (c, w2)
    | (none, w2) => (.ret .SUCCESS, w2.setBootMode .BOOT_NEUTRAL)

/-- The test of the counting loop of `SwitchRunlevels` (lines 439-440). -/
def inRunlevel (env : Env) (Runlevel : String) (TObj : ObjTable) : Bool :=
  !TObj.Opts.HaltCmdOnly && env.ObjRL_CheckRunlevel Runlevel TObj &&
    TObj.Enabled && decide (TObj.ObjectStartPriority > 0)

/-- The counter `NumInRunlevel` after the counting loop, which visits every
node but the one whose `Next` is `NULL`. -/
def NumInRunlevel (env : Env) (w : World) (Runlevel : String) : Nat :=
  (w.ObjectTable.dropLast.filter (inRunlevel env Runlevel)).length

/-- Body of the stop loop of `SwitchRunlevels` (lines 454-460). -/
def switchStopBody (env : Env) (Runlevel : String) (w : World) (CurPriority : Nat) :
    Option Ctl × World :=
  match objectAt env w (some w.sys.CurRunlevel) false CurPriority with
  | none => (none, w)
  | some (ref, TObj) =>
    if TObj.Started && TObj.Opts.CanStop && !TObj.Opts.HaltCmdOnly &&
        !env.ObjRL_CheckRunlevel Runlevel TObj then
      callProcess env w CurPriority ref TObj false
    else (none, w)

/-- Body of the start loop of `SwitchRunlevels` (lines 470-475). -/
def switchStartBody (env : Env) (w : World) (CurPriority : Nat) : Option Ctl × World :=
  match objectAt env w (some w.sys.CurRunlevel) true CurPriority with
  | none => (none, w)
  | some (ref, TObj) =>
    if TObj.Enabled && !TObj.Started then callProcess env w CurPriority ref TObj true
    else (none, w)

/-- The copy `snprintf(CurRunlevel, MAX_DESCRIPT_SIZE, "%s", Runlevel)`. -/
def World.setRunlevel (env : Env) (w : World) (Runlevel : String) : World :=
  { w with sys := { w.sys with CurRunlevel := snprintf env.MAX_DESCRIPT_SIZE Runlevel } }

/-- The function `SwitchRunlevels` of `parse.c`. -/
def SwitchRunlevels (env : Env) (w : World) (Runlevel : String) : Ctl × World :=
  if NumInRunlevel env w Runlevel = 0 then (.ret .FAILURE, w)
  else
    match sweep (switchStopBody env Runlevel)
        (List.range' 1 (env.GetHighestPriority w.ObjectTable false)) w with
    | (some c, w1) => (c, w1)
    | (none, w1) =>
      let w2 := w1.setRunlevel env Runlevel
      match sweep (switchStartBody env)
          (List.range' 1 (env.GetHighestPriority w2.ObjectTable true)) w2 with
      | (some c, w3) => (c, w3)
      | (none, w3) => (.ret .SUCCESS, w3)

/-- The statuses handed to `PerformStatusReport`, in the order of the trace. -/
def statusReports : List Event → List rStatus
  | [] => []
  | .PerformStatusReport _ st :: es => st :: statusReports es
  | _ :: es => statusReports es

/-- The pids `SIGTERM` was sent to, in the order of the trace. -/
def killedPids : List Event → List Int
  | [] => []
  | .kill pid _ :: es => pid :: killedPids es
  | _ :: es => killedPids es

/-- The enumerator values of
`typedef enum { FAILURE, SUCCESS, WARNING, NOTIFICATION } rStatus;`. -/
def rStatusOrder : rStatus → Int
  | .FAILURE => 0
  | .SUCCESS => 1
  | .WARNING => 2
  | .NOTIFICATION => 3

/-- The priority of an object in one direction. -/
def priorityOf (IsStartingMode : Bool) (obj : ObjTable) : Nat :=
  if IsStartingMode then obj.ObjectStartPriority else obj.ObjectStopPriority

/-- A sample environment: only `/bin/bash` exists, `vfork` answers `100`,
`waitpid` stores `raw`, pid files hold `readPid`, `kill` succeeds iff `killOk`;
a record is a member of the runlevels listed in `ObjectRunlevels`; the highest
priority is the greatest one configured, and a priority is bound to the first
node carrying it (within the runlevel asked for, if any), the node that ends
the chain apart. -/
def sampleEnv (raw : Int) (readPid : Nat) (killOk : Bool) : Env where
  rStatusValue := rStatusOrder
  MAX_DESCRIPT_SIZE := 384
  fopen := fun _ path => decide (path = "/bin/bash")
  fork := fun _ => 100
  execlp := fun _ _ _ => true
  waitpid := fun _ _ => raw
  AdvancedPIDFind := fun _ obj => obj.ObjectPID
  ReadPIDFile := fun _ _ => readPid
  kill := fun _ _ => killOk
  GetHighestPriority := fun tbl b => (tbl.dropLast.map (priorityOf b)).foldl max 0
  GetObjectByPriority := fun tbl rl b p =>
    tbl.dropLast.findIdx? (fun obj => decide (priorityOf b obj = p) &&
      (match rl with
       | none => true
       | some r => decide (r ∈ obj.ObjectRunlevels)))
  ObjRL_CheckRunlevel := fun rl obj => decide (rl ∈ obj.ObjectRunlevels)

/-- A sample state of the globals: runlevel `default`, nothing running. -/
def sampleSys : Sys :=
  ⟨"default", 0, ⟨none, 0⟩, .BOOT_NEUTRAL, false, []⟩

/-- A sample object: enabled, not started, member of `default`, priority `1`. -/
def sampleObj (startCmd : String) (opts : ObjOpts) : ObjTable :=
  { ObjectID := "svc", ObjectDescription := "svc", ObjectStartCommand := startCmd,
    ObjectStopCommand := "svc stop", ObjectStartPriority := 1, ObjectStopPriority := 1,
    ObjectPID := 0, Enabled := true, Started := false, Opts := opts,
    ObjectRunlevels := ["default"] }

/-- Sample options: every flag off but `CanStop`, with the given stop mode. -/
def plainOpts (m : StopMode) : ObjOpts :=
  ⟨false, false, false, false, true, m⟩

/-- Sample options of an object that is only there to be stopped. -/
def haltOnlyOpts (m : StopMode) : ObjOpts :=
  ⟨false, false, true, false, true, m⟩

/-- Sample options of an object started without waiting. -/
def noWaitOpts (m : StopMode) : ObjOpts :=
  ⟨true, false, false, false, true, m⟩

/-- A sample object that is running, with pid `4242` on record. -/
def runningObj (m : StopMode) : ObjTable :=
  { sampleObj "svc start" (plainOpts m) with Started := true, ObjectPID := 4242 }

/-- The values `vfork` returned, in the order of the trace: one per launch
made by the calling thread. -/
def forkedPids : List Event → List Int
  | [] => []
  | .fork pid :: es => pid :: forkedPids es
  | _ :: es => forkedPids es

/-- The objects handed to a detached thread, in the order of the trace. -/
def detachedRefs : List Event → List Nat
  | [] => []
  | .pthread_create ref :: es => ref :: detachedRefs es
  | _ :: es => detachedRefs es

/-- Every `HaltCmdOnly` record of the table `t` sits unchanged at the same
place of the table `t2`. -/
def HaltOnlyKept (t t2 : List ObjTable) : Prop :=
  ∀ (i : Nat) (obj : ObjTable), t[i]? = some obj → obj.Opts.HaltCmdOnly = true →
    t2[i]? = some obj

/-- The node that ends the chain: nothing configured, `Next` is `NULL`. -/
def lastNode : ObjTable :=
  { ObjectID := "", ObjectDescription := "", ObjectStartCommand := "",
    ObjectStopCommand := "", ObjectStartPriority := 0, ObjectStopPriority := 0,
    ObjectPID := 0, Enabled := false, Started := false,
    Opts := ⟨false, false, false, false, false, .STOP_INVALID⟩, ObjectRunlevels := [] }

/-- A sample state: the given objects, followed by the node that ends the chain. -/
def sampleWorld (objs : List ObjTable) : World :=
  ⟨sampleSys, objs ++ [lastNode], []⟩

/-- The messages handed to `SpitError`, in the order of the trace. -/
def errorDiagnostics : List Event → List String
  | [] => []
  | .SpitError msg :: es => msg :: errorDiagnostics es
  | _ :: es => errorDiagnostics es

/-- The messages handed to `SpitWarning`, in the order of the trace. -/
def warnings : List Event → List String
  | [] => []
  | .SpitWarning msg :: es => msg :: warnings es
  | _ :: es => warnings es

/-- The calls of `kill`, in the order of the trace: the pid addressed and
whether the signal was delivered. -/
def killCalls : List Event → List (Int × Bool)
  | [] => []
  | .kill pid delivered :: es => (pid, delivered) :: killCalls es
  | _ :: es => killCalls es

/-- The calls of `AdvancedPIDFind`, in the order of the trace: the object and
the `ObjectPID` it carries when handed over. -/
def pidFindCalls : List Event → List (Nat × Nat)
  | [] => []
  | .AdvancedPIDFind ref seed :: es => (ref, seed) :: pidFindCalls es
  | _ :: es => pidFindCalls es

/-- The interpreters the launcher knows, in the order it probes them, each with
the name it is run under and whether it dissolves into the command. -/
def shellCandidates : List (String × Shell) :=
  [("/bin/bash", ⟨"bash", true⟩), ("/bin/dash", ⟨"dash", true⟩), ("/bin/zsh", ⟨"zsh", true⟩),
   ("/bin/csh", ⟨"csh", true⟩), ("/bin/busybox", ⟨"busybox", false⟩)]

/-- The shell resolver in the words of the specification (4.2): the first
candidate that is present; without any, the default `sh`, taken as not
dissolving. -/
def specShell (present : String → Bool) : Shell :=
  match shellCandidates.find? (fun c => present c.1) with
  | some c => c.2
  | none => ⟨"sh", false⟩

/-- A sequence of launches by one thread, each on an object and in a
direction; the sequence ends when control does not come back from a launch. -/
def launchAll (env : Env) : List (Nat × ObjTable × Bool) → Sys → Sys
  | [], s => s
  | (ref, obj, b) :: rest, s =>
    match ExecuteConfigObject env s ref obj b with
    | (.ret _, _, s1) => launchAll env rest s1
    | (_, _, s1) => s1

/-- A sample state with two children already counted. -/
def busySys : Sys :=
  { sampleSys with RunningChildCount := 2 }

/-- The configuration of a record: the record without its runtime fields
`Started` and `ObjectPID`. -/
def config (obj : ObjTable) : ObjTable :=
  { obj with Started := false, ObjectPID := 0 }

/-- The skip rule of a full sweep in the words of the specification (4.6,
step 3): (a) starting and disabled, or (b) stopping, `HaltCmdOnly` and
disabled, or (c) starting and `HaltCmdOnly`. -/
def specSkipped (IsStartingMode : Bool) (obj : ObjTable) : Bool :=
  (IsStartingMode && !obj.Enabled) ||
  (!IsStartingMode && obj.Opts.HaltCmdOnly && !obj.Enabled) ||
  (IsStartingMode && obj.Opts.HaltCmdOnly)

/-- The call a full sweep owes to priority `p`, in the words of the
specification, read off the state `w`: the record bound to `p` (in the current
runlevel when starting), if it is not skipped and its `Started` flag disagrees
with the direction. -/
def specCallAt (env : Env) (w : World) (IsStartingMode : Bool) (p : Nat) : Option Call :=
  match objectAt env w (if IsStartingMode then some w.sys.CurRunlevel else none)
      IsStartingMode p with
  | none => none
  | some (ref, obj) =>
    if !specSkipped IsStartingMode obj && (obj.Started != IsStartingMode) then
      some ⟨p, ref, IsStartingMode, w.sys.CurRunlevel⟩
    else none

/-- The calls of a full sweep in the words of the specification: those owed to
the priorities `1` to the highest one, in ascending order, all read off the
state `w` the sweep starts in. -/
def specRunAllCalls (env : Env) (w : World) (IsStartingMode : Bool) : List Call :=
  (List.range' 1 (env.GetHighestPriority w.ObjectTable IsStartingMode)).filterMap
    (specCallAt env w IsStartingMode)

/-- The object behind `ref` is there and its `Started` flag has the value `v`. -/
def FlagAt (w : World) (ref : Nat) (v : Bool) : Prop :=
  ∃ o, w.ObjectTable[ref]? = some o ∧ o.Started = v

/-! ## Reading the trace -/

/-- A pid that fits `pid_t` reaches `kill` unchanged. -/
theorem toPidT_of_lt (n : Nat) (h : n < 2 ^ 31) : toPidT n = (n : Int) := by
  have hm : n % 4294967296 = n := Nat.mod_eq_of_lt (by omega)
  unfold toPidT
  rw [hm, if_pos (by omega)]

theorem toPidT_zero : toPidT 0 = 0 := by
  decide

theorem statusReports_append (a b : List Event) :
    statusReports (a ++ b) = statusReports a ++ statusReports b := by
  induction a with
  | nil => rfl
  | cons e es ih => cases e <;> simp [statusReports, ih]

theorem killedPids_append (a b : List Event) :
    killedPids (a ++ b) = killedPids a ++ killedPids b := by
  induction a with
  | nil => rfl
  | cons e es ih => cases e <;> simp [killedPids, ih]

theorem forkedPids_append (a b : List Event) :
    forkedPids (a ++ b) = forkedPids a ++ forkedPids b := by
  induction a with
  | nil => rfl
  | cons e es ih => cases e <;> simp [forkedPids, ih]

theorem detachedRefs_append (a b : List Event) :
    detachedRefs (a ++ b) = detachedRefs a ++ detachedRefs b := by
  induction a with
  | nil => rfl
  | cons e es ih => cases e <;> simp [detachedRefs, ih]

/-! ## Exit status -/

theorem WEXITSTATUS_range (raw : Int) : 0 ≤ WEXITSTATUS raw ∧ WEXITSTATUS raw < 256 := by
  unfold WEXITSTATUS
  constructor
  · exact Int.emod_nonneg _ (by norm_num)
  · exact Int.emod_lt_of_pos _ (by norm_num)

theorem classifyExit_ne_notification (code : Int) : classifyExit code ≠ .NOTIFICATION := by
  unfold classifyExit
  split_ifs <;> simp

/-- On the parent path the launcher hands back the classified exit status of
the raw status `waitpid` stored, which is never `NOTIFICATION`. -/
theorem ExecuteConfigObject_ret (env : Env) (s : Sys) (ref : Nat) (obj : ObjTable) (b : Bool)
    (o : rStatus) (h : (ExecuteConfigObject env s ref obj b).1 = .ret o) :
    (∃ raw, o = classifyExit (WEXITSTATUS raw)) ∧ o ≠ .NOTIFICATION := by
  unfold ExecuteConfigObject at h
  simp only at h
  split_ifs at h
  simp only [parentPath, Ctl.ret.injEq] at h
  subst h
  exact ⟨⟨_, rfl⟩, classifyExit_ne_notification _⟩

/-! ## The test `ExitStatus ? ... : ...` -/

/-- With `FAILURE` the one enumerator of value zero, a status tests true
exactly when it is not `FAILURE`. -/
theorem truthy_iff (env : Env) (hval : ∀ st, env.rStatusValue st = 0 ↔ st = .FAILURE)
    (o : rStatus) : truthy env o = true ↔ o ≠ .FAILURE := by
  simp [truthy, hval o]

/-- Whatever values the enumerators have, as long as `FAILURE` and `WARNING`
differ (they are two `case` labels of one `switch` in `console.c`), the test
does not single out `SUCCESS` among the three statuses of the launcher. -/
theorem truthy_not_only_success (env : Env)
    (hne : env.rStatusValue .FAILURE ≠ env.rStatusValue .WARNING) :
    ¬ (∀ o, o = rStatus.SUCCESS ∨ o = .FAILURE ∨ o = .WARNING →
        (truthy env o = true ↔ o = .SUCCESS)) := by
  intro h
  have hF := h .FAILURE (by simp)
  have hW := h .WARNING (by simp)
  simp [truthy] at hF hW
  exact hne (by rw [hF, hW])

/-! ## `ProcessConfigObject`, start -/

/-- C1 (as amended): for a record with a non-empty start command, neither
`HaltCmdOnly` nor `NoWait`, and for every status `o` the launcher returns,
`ProcessConfigObject` in start mode returns `o`, `o` is one of `SUCCESS`,
`FAILURE`, `WARNING`, and afterwards `Started` is true if and only if `o` is
not `FAILURE` (so also for `WARNING`), whatever `Started` was before. -/
theorem C1_sync_start_marks_started (env : Env) (s s2 : Sys) (ref : Nat)
    (obj obj2 : ObjTable) (report : Bool) (o : rStatus)
    (hcmd : obj.ObjectStartCommand ≠ "") (hhalt : obj.Opts.HaltCmdOnly = false)
    (hnw : obj.Opts.NoWait = false)
    (hval : ∀ st, env.rStatusValue st = 0 ↔ st = .FAILURE)
    (hlaunch : ExecuteConfigObject env ((printIf report s obj true).log .fflush) ref obj true
      = (.ret o, obj2, s2)) :
    (ProcessConfigObject env s ref obj true report).1 = .ret o ∧
    ((ProcessConfigObject env s ref obj true report).2.1.Started = true ↔ o ≠ .FAILURE) ∧
    (o = .SUCCESS ∨ o = .FAILURE ∨ o = .WARNING) := by
  have hne := (ExecuteConfigObject_ret env _ ref obj true o (by rw [hlaunch])).2
  have ht := truthy_iff env hval o
  refine ⟨?_, ?_, ?_⟩
  · simp [ProcessConfigObject, hcmd, hhalt, hnw, hlaunch]
  · simp [ProcessConfigObject, hcmd, hhalt, hnw, hlaunch, ht]
  · cases o <;> simp at hne ⊢

/-- C1, at a concrete input: the command exits with code 128, the launcher
answers `WARNING`, and the theorem applies. -/
theorem C1_sync_start_marks_started_witness :
    (ProcessConfigObject (sampleEnv 32768 0 true) sampleSys 0
        (sampleObj "exit 128" (plainOpts .STOP_NONE)) true true).1 = .ret .WARNING ∧
    ((ProcessConfigObject (sampleEnv 32768 0 true) sampleSys 0
        (sampleObj "exit 128" (plainOpts .STOP_NONE)) true true).2.1.Started = true
      ↔ rStatus.WARNING ≠ .FAILURE) ∧
    (rStatus.WARNING = .SUCCESS ∨ rStatus.WARNING = .FAILURE ∨ rStatus.WARNING = .WARNING) :=
  C1_sync_start_marks_started (sampleEnv 32768 0 true) sampleSys
    (ExecuteConfigObject (sampleEnv 32768 0 true)
      ((printIf true sampleSys (sampleObj "exit 128" (plainOpts .STOP_NONE)) true).log .fflush) 0
      (sampleObj "exit 128" (plainOpts .STOP_NONE)) true).2.2
    0 (sampleObj "exit 128" (plainOpts .STOP_NONE))
    (ExecuteConfigObject (sampleEnv 32768 0 true)
      ((printIf true sampleSys (sampleObj "exit 128" (plainOpts .STOP_NONE)) true).log .fflush) 0
      (sampleObj "exit 128" (plainOpts .STOP_NONE)) true).2.1
    true .WARNING (by decide) (by decide) (by decide)
    (by intro st; cases st <;> decide) (by rfl)

/-- C1, counterexample: a record with start command `exit 128`, not
`HaltCmdOnly`, not `NoWait`, not started. The launcher returns `WARNING`,
`ProcessConfigObject` returns `WARNING`, and `Started` is true although the
outcome is not `SUCCESS`. -/
theorem C1_counterexample :
    (sampleObj "exit 128" (plainOpts .STOP_NONE)).ObjectStartCommand ≠ "" ∧
    (sampleObj "exit 128" (plainOpts .STOP_NONE)).Opts.HaltCmdOnly = false ∧
    (sampleObj "exit 128" (plainOpts .STOP_NONE)).Opts.NoWait = false ∧
    (ExecuteConfigObject (sampleEnv 32768 0 true)
      ((printIf true sampleSys (sampleObj "exit 128" (plainOpts .STOP_NONE)) true).log .fflush) 0
      (sampleObj "exit 128" (plainOpts .STOP_NONE)) true).1 = .ret .WARNING ∧
    (ProcessConfigObject (sampleEnv 32768 0 true) sampleSys 0
        (sampleObj "exit 128" (plainOpts .STOP_NONE)) true true).1 = .ret .WARNING ∧
    (ProcessConfigObject (sampleEnv 32768 0 true) sampleSys 0
        (sampleObj "exit 128" (plainOpts .STOP_NONE)) true true).2.1.Started = true ∧
    rStatus.WARNING ≠ .SUCCESS := by
  decide

/-- C10: for a record with a non-empty start command, not `HaltCmdOnly`, with
`NoWait`, `ProcessConfigObject` in start mode returns `NOTIFICATION` and leaves
`Started` true whatever it was (`NOTIFICATION` is not the enumerator of value
zero). The calling thread prints, flushes, creates the detached thread and
reports: the result is written without any answer of `vfork` or `waitpid`,
and no fork appears in the trace. -/
theorem C10_nowait_start (env : Env) (s : Sys) (ref : Nat) (obj : ObjTable) (report : Bool)
    (hcmd : obj.ObjectStartCommand ≠ "") (hhalt : obj.Opts.HaltCmdOnly = false)
    (hnw : obj.Opts.NoWait = true) (hN : env.rStatusValue .NOTIFICATION ≠ 0) :
    ProcessConfigObject env s ref obj true report =
      (.ret .NOTIFICATION, { obj with Started := true },
        reportIf report (((printIf report s obj true).log .fflush).log (.pthread_create ref))
          obj true .NOTIFICATION) ∧
    forkedPids (ProcessConfigObject env s ref obj true report).2.2.trace = forkedPids s.trace ∧
    detachedRefs (ProcessConfigObject env s ref obj true report).2.2.trace
      = detachedRefs s.trace ++ [ref] := by
  have h : ProcessConfigObject env s ref obj true report =
      (.ret .NOTIFICATION, { obj with Started := true },
        reportIf report (((printIf report s obj true).log .fflush).log (.pthread_create ref))
          obj true .NOTIFICATION) := by
    simp [ProcessConfigObject, hcmd, hhalt, hnw, truthy, hN]
  refine ⟨h, ?_, ?_⟩
  · rw [h]
    cases report <;> simp [reportIf, printIf, Sys.log, forkedPids_append, forkedPids]
  · rw [h]
    cases report <;> simp [reportIf, printIf, Sys.log, detachedRefs_append, detachedRefs]

/-- C10, at a concrete input: a started `NoWait` record is dispatched again. -/
theorem C10_nowait_start_witness :
    ProcessConfigObject (sampleEnv 256 0 true) sampleSys 0
        { sampleObj "daemon" (noWaitOpts .STOP_PID) with Started := true } true false =
      (.ret .NOTIFICATION,
        { { sampleObj "daemon" (noWaitOpts .STOP_PID) with Started := true }
            with Started := true },
        reportIf false (((printIf false sampleSys
            { sampleObj "daemon" (noWaitOpts .STOP_PID) with Started := true } true).log
              .fflush).log (.pthread_create 0))
          { sampleObj "daemon" (noWaitOpts .STOP_PID) with Started := true } true
            .NOTIFICATION) ∧
    forkedPids (ProcessConfigObject (sampleEnv 256 0 true) sampleSys 0
        { sampleObj "daemon" (noWaitOpts .STOP_PID) with Started := true } true
          false).2.2.trace = forkedPids sampleSys.trace ∧
    detachedRefs (ProcessConfigObject (sampleEnv 256 0 true) sampleSys 0
        { sampleObj "daemon" (noWaitOpts .STOP_PID) with Started := true } true
          false).2.2.trace = detachedRefs sampleSys.trace ++ [0] :=
  C10_nowait_start (sampleEnv 256 0 true) sampleSys 0
    { sampleObj "daemon" (noWaitOpts .STOP_PID) with Started := true } false
    (by decide) (by decide) (by decide) (by decide)

/-- C4 (as amended): for a `HaltCmdOnly` record, `ProcessConfigObject` in start
mode returns `FAILURE` when the start command is not empty, and `SUCCESS` when
it is empty (the test for an empty command comes first), for either value of
`PrintStatus`. -/
theorem C4_haltonly_start_status (env : Env) (s : Sys) (ref : Nat) (obj : ObjTable)
    (report : Bool) (hhalt : obj.Opts.HaltCmdOnly = true) :
    (ProcessConfigObject env s ref obj true report).1 =
      .ret (if obj.ObjectStartCommand = "" then .SUCCESS else .FAILURE) := by
  by_cases hcmd : obj.ObjectStartCommand = "" <;>
    simp [ProcessConfigObject, hcmd, hhalt]

/-- C4, at concrete inputs: a `HaltCmdOnly` record with a start command. -/
theorem C4_haltonly_start_status_witness :
    (ProcessConfigObject (sampleEnv 0 0 true) sampleSys 0
        (sampleObj "svc start" (haltOnlyOpts .STOP_COMMAND)) true true).1 =
      .ret (if (sampleObj "svc start" (haltOnlyOpts .STOP_COMMAND)).ObjectStartCommand = ""
        then .SUCCESS else .FAILURE) :=
  C4_haltonly_start_status (sampleEnv 0 0 true) sampleSys 0
    (sampleObj "svc start" (haltOnlyOpts .STOP_COMMAND)) true (by decide)

/-- C4, counterexample: a `HaltCmdOnly` record with an empty start command;
the start call returns `SUCCESS`, not `FAILURE`. -/
theorem C4_counterexample :
    (sampleObj "" (haltOnlyOpts .STOP_COMMAND)).Opts.HaltCmdOnly = true ∧
    (ProcessConfigObject (sampleEnv 0 0 true) sampleSys 0
        (sampleObj "" (haltOnlyOpts .STOP_COMMAND)) true true).1 = .ret .SUCCESS ∧
    (ProcessConfigObject (sampleEnv 0 0 true) sampleSys 0
        (sampleObj "" (haltOnlyOpts .STOP_COMMAND)) true false).1 = .ret .SUCCESS := by
  decide

/-! ## `ProcessConfigObject`, stop -/

/-- C3 (as amended): for a record with stop mode `STOP_COMMAND` and for every
status `o` the launcher returns for the stop command, `ProcessConfigObject` in
stop mode returns `o`, `o` is one of `SUCCESS`, `FAILURE`, `WARNING`, and
afterwards `Started` is false if and only if `o` is not `FAILURE` (so also for
`WARNING`), whatever `Started` was before. -/
theorem C3_stop_command_marks_stopped (env : Env) (s s2 : Sys) (ref : Nat)
    (obj obj2 : ObjTable) (report : Bool) (o : rStatus)
    (hmode : obj.Opts.StopMode = .STOP_COMMAND)
    (hval : ∀ st, env.rStatusValue st = 0 ↔ st = .FAILURE)
    (hlaunch : ExecuteConfigObject env
        (if report then (printIf report s obj false).log .fflush else s) ref obj false
      = (.ret o, obj2, s2)) :
    (ProcessConfigObject env s ref obj false report).1 = .ret o ∧
    ((ProcessConfigObject env s ref obj false report).2.1.Started = false ↔ o ≠ .FAILURE) ∧
    (o = .SUCCESS ∨ o = .FAILURE ∨ o = .WARNING) := by
  have hne := (ExecuteConfigObject_ret env _ ref obj false o (by rw [hlaunch])).2
  have ht := truthy_iff env hval o
  refine ⟨?_, ?_, ?_⟩
  · simp [ProcessConfigObject, hmode, hlaunch]
  · by_cases hf : o = .FAILURE
    · have hz : truthy env .FAILURE = false := by simp [truthy, (hval .FAILURE).2 rfl]
      subst hf
      simp [ProcessConfigObject, hmode, hlaunch, hz]
    · simp [ProcessConfigObject, hmode, hlaunch, ht.2 hf, hf]
  · cases o <;> simp at hne ⊢

/-- C3, at a concrete input: the stop command fails with exit code 1 on a
record that was not started; `Started` is true afterwards. -/
theorem C3_stop_command_marks_stopped_witness :
    (ProcessConfigObject (sampleEnv 256 0 true) sampleSys 0
        (sampleObj "svc start" (plainOpts .STOP_COMMAND)) false false).1 = .ret .FAILURE ∧
    ((ProcessConfigObject (sampleEnv 256 0 true) sampleSys 0
        (sampleObj "svc start" (plainOpts .STOP_COMMAND)) false false).2.1.Started = false
      ↔ rStatus.FAILURE ≠ .FAILURE) ∧
    (rStatus.FAILURE = .SUCCESS ∨ rStatus.FAILURE = .FAILURE ∨ rStatus.FAILURE = .WARNING) :=
  C3_stop_command_marks_stopped (sampleEnv 256 0 true) sampleSys
    (ExecuteConfigObject (sampleEnv 256 0 true) sampleSys 0
      (sampleObj "svc start" (plainOpts .STOP_COMMAND)) false).2.2
    0 (sampleObj "svc start" (plainOpts .STOP_COMMAND))
    (ExecuteConfigObject (sampleEnv 256 0 true) sampleSys 0
      (sampleObj "svc start" (plainOpts .STOP_COMMAND)) false).2.1
    false .FAILURE (by decide) (by intro st; cases st <;> decide) (by rfl)

/-- C3, counterexample: a running record with stop mode `STOP_COMMAND` whose
stop command exits with code 128. The launcher returns `WARNING`,
`ProcessConfigObject` returns `WARNING`, and `Started` is false although the
outcome is not `SUCCESS`. -/
theorem C3_counterexample :
    (runningObj .STOP_COMMAND).Opts.StopMode = .STOP_COMMAND ∧
    (runningObj .STOP_COMMAND).Started = true ∧
    (ExecuteConfigObject (sampleEnv 32768 0 true)
      ((printIf true sampleSys (runningObj .STOP_COMMAND) false).log .fflush) 0
      (runningObj .STOP_COMMAND) false).1 = .ret .WARNING ∧
    (ProcessConfigObject (sampleEnv 32768 0 true) sampleSys 0
        (runningObj .STOP_COMMAND) false true).1 = .ret .WARNING ∧
    (ProcessConfigObject (sampleEnv 32768 0 true) sampleSys 0
        (runningObj .STOP_COMMAND) false true).2.1.Started = false ∧
    rStatus.WARNING ≠ .SUCCESS := by
  decide

/-- With `PrintStatus` set, an unreadable pid file ends the stop at once: the
status `FAILURE` is reported and returned, the record is left as it was and
no signal is sent. -/
theorem pidfile_unreadable_reported (env : Env) (s : Sys) (ref : Nat) (obj : ObjTable)
    (hmode : obj.Opts.StopMode = .STOP_PIDFILE)
    (hread : env.ReadPIDFile ((printIf true s obj false).log .fflush) obj = 0) :
    (ProcessConfigObject env s ref obj false true).1 = .ret .FAILURE ∧
    (ProcessConfigObject env s ref obj false true).2.1 = obj ∧
    killedPids (ProcessConfigObject env s ref obj false true).2.2.trace = killedPids s.trace := by
  have h : ProcessConfigObject env s ref obj false true =
      (.ret .FAILURE, obj,
        reportIf true (((printIf true s obj false).log .fflush).log (.ReadPIDFile ref 0))
          obj false .FAILURE) := by
    simp [ProcessConfigObject, hmode, hread]
  rw [h]
  simp [reportIf, printIf, Sys.log, killedPids_append, killedPids]

/-- Without `PrintStatus`, an unreadable pid file does not end the stop: the
`break` sits inside `if (PrintStatus)`, so `kill(0, SIGTERM)` is called and its
answer decides the status and `Started`. -/
theorem pidfile_unreadable_silent (env : Env) (s : Sys) (ref : Nat) (obj : ObjTable)
    (hmode : obj.Opts.StopMode = .STOP_PIDFILE) (hread : env.ReadPIDFile s obj = 0) :
    ProcessConfigObject env s ref obj false false =
      killAndMark env (s.log (.ReadPIDFile ref 0)) obj 0 false ∧
    killedPids (ProcessConfigObject env s ref obj false false).2.2.trace
      = killedPids s.trace ++ [0] := by
  have h : ProcessConfigObject env s ref obj false false =
      killAndMark env (s.log (.ReadPIDFile ref 0)) obj 0 false := by
    simp [ProcessConfigObject, hmode, hread]
  rw [h]
  simp [killAndMark, reportIf, Sys.log, killedPids_append, killedPids, toPidT_zero]

/-- C2, the code at the failing input: a running record with stop mode
`STOP_PIDFILE` whose pid file cannot be read (`ReadPIDFile` answers `0`),
stopped with `PrintStatus` off. `SIGTERM` is sent to pid `0`; as the signal
is delivered the call returns `SUCCESS` and `Started` becomes false. -/
theorem C2_unreadable_pidfile_unreported :
    (runningObj .STOP_PIDFILE).Opts.StopMode = .STOP_PIDFILE ∧
    (sampleEnv 0 0 true).ReadPIDFile sampleSys (runningObj .STOP_PIDFILE) = 0 ∧
    ProcessConfigObject (sampleEnv 0 0 true) sampleSys 0 (runningObj .STOP_PIDFILE) false false
      = (.ret .SUCCESS, { runningObj .STOP_PIDFILE with Started := false },
          { sampleSys with trace := [.ReadPIDFile 0 0, .kill 0 true] }) ∧
    killedPids (ProcessConfigObject (sampleEnv 0 0 true) sampleSys 0
      (runningObj .STOP_PIDFILE) false false).2.2.trace = [0] := by
  decide

/-! ## Status lines -/

theorem resolveShell_reports (env : Env) (s : Sys) :
    statusReports (resolveShell env s).2.trace = statusReports s.trace := by
  unfold resolveShell
  split_ifs <;> simp [Sys.log, statusReports_append, statusReports]

/-- The launcher itself reports no status. -/
theorem ExecuteConfigObject_reports (env : Env) (s : Sys) (ref : Nat) (obj : ObjTable)
    (b : Bool) :
    statusReports (ExecuteConfigObject env s ref obj b).2.2.trace = statusReports s.trace := by
  have h := resolveShell_reports env s
  unfold ExecuteConfigObject
  simp only
  split_ifs <;>
    simp [forkState, childPath, parentPath, parentAfterFork, parentAfterWait, Sys.log,
      statusReports_append, statusReports, h] <;>
    split_ifs <;> simp [statusReports_append, statusReports, h]

/-- The launcher returns whenever `vfork` answers with a child pid. -/
theorem ExecuteConfigObject_returns (env : Env) (s : Sys) (ref : Nat) (obj : ObjTable)
    (b : Bool) (hfork : ∀ t, 0 < env.fork t) :
    ∃ st, (ExecuteConfigObject env s ref obj b).1 = .ret st := by
  have h := hfork (forkState env s)
  unfold ExecuteConfigObject
  simp only
  rw [if_neg (by omega), if_neg (by omega)]
  exact ⟨_, rfl⟩

/-- C8 (as amended): a call of `ProcessConfigObject` with `PrintStatus` set
that returns status `st` has handed exactly one status to
`PerformStatusReport`, namely `st`, when it is a start with a non-empty start
command or a stop with mode `STOP_COMMAND`, `STOP_PID` or `STOP_PIDFILE`; it
has reported nothing when it is a start with an empty start command or a stop
with mode `STOP_NONE` or `STOP_INVALID`. The call does return whenever
`vfork` answers with a child pid. -/
theorem C8_status_lines (env : Env) (s : Sys) (ref : Nat) (obj : ObjTable) (isStart : Bool) :
    (∀ st, (ProcessConfigObject env s ref obj isStart true).1 = .ret st →
      statusReports (ProcessConfigObject env s ref obj isStart true).2.2.trace =
        statusReports s.trace ++
          (if (isStart = true ∧ obj.ObjectStartCommand = "") ∨
              (isStart = false ∧
                (obj.Opts.StopMode = .STOP_NONE ∨ obj.Opts.StopMode = .STOP_INVALID))
           then [] else [st])) ∧
    ((∀ t, 0 < env.fork t) →
      ∃ st, (ProcessConfigObject env s ref obj isStart true).1 = .ret st) := by
  have hs1 : ∀ b, statusReports ((printIf true s obj b).log .fflush).trace
      = statusReports s.trace := by
    intro b
    simp [printIf, Sys.log, statusReports_append, statusReports]
  cases isStart
  · cases hm : obj.Opts.StopMode
    · simp [ProcessConfigObject, hm]
    · simp [ProcessConfigObject, hm]
    · simp only [ProcessConfigObject, hm]
      have hr := ExecuteConfigObject_reports env ((printIf true s obj false).log .fflush)
        ref obj false
      constructor
      · intro st
        rcases hE : ExecuteConfigObject env ((printIf true s obj false).log .fflush)
          ref obj false with ⟨c, o2, s2⟩
        rw [hE] at hr
        cases c <;> simp [hE]
        intro h
        subst h
        simp [reportIf, printIf, Sys.log, statusReports_append, statusReports] at hr ⊢
        exact hr
      · intro hfork
        obtain ⟨e, he⟩ := ExecuteConfigObject_returns env
          ((printIf true s obj false).log .fflush) ref obj false hfork
        rcases hE : ExecuteConfigObject env ((printIf true s obj false).log .fflush)
          ref obj false with ⟨c, o2, s2⟩
        rw [hE] at he
        simp only at he
        subst he
        simp [hE]
    · simp only [ProcessConfigObject, hm]
      have h1 := hs1 false
      generalize (printIf true s obj false).log .fflush = s1 at h1 ⊢
      simp only [killAndMark]
      generalize env.kill s1 (toPidT obj.ObjectPID) = k
      cases k <;> simp [reportIf, Sys.log, statusReports_append, statusReports, h1]
    · simp only [ProcessConfigObject, hm]
      have h1 := hs1 false
      generalize (printIf true s obj false).log .fflush = s1 at h1 ⊢
      simp only [↓reduceIte, and_true]
      generalize env.ReadPIDFile s1 obj = pid
      by_cases hp : pid = 0
      · simp [hp, reportIf, Sys.log, statusReports_append, statusReports, h1]
      · simp only [killAndMark]
        generalize env.kill _ (toPidT pid) = k
        cases k <;> simp [hp, reportIf, Sys.log, statusReports_append, statusReports, h1]
  · by_cases hcmd : obj.ObjectStartCommand = ""
    · simp [ProcessConfigObject, hcmd]
    · by_cases hh : obj.Opts.HaltCmdOnly = true
      · simp [ProcessConfigObject, hcmd, hh, reportIf, Sys.log, statusReports_append,
          statusReports]
      · by_cases hnw : obj.Opts.NoWait = true
        · simp [ProcessConfigObject, hcmd, hh, hnw, reportIf, printIf, Sys.log,
            statusReports_append, statusReports]
        · simp only [ProcessConfigObject, hcmd, hh, hnw]
          have hr := ExecuteConfigObject_reports env ((printIf true s obj true).log .fflush)
            ref obj true
          constructor
          · intro st
            rcases hE : ExecuteConfigObject env ((printIf true s obj true).log .fflush)
              ref obj true with ⟨c, o2, s2⟩
            rw [hE] at hr
            cases c <;> simp [hE]
            intro h
            subst h
            simp [reportIf, printIf, Sys.log, statusReports_append, statusReports] at hr ⊢
            exact hr
          · intro hfork
            obtain ⟨e, he⟩ := ExecuteConfigObject_returns env
              ((printIf true s obj true).log .fflush) ref obj true hfork
            rcases hE : ExecuteConfigObject env ((printIf true s obj true).log .fflush)
              ref obj true with ⟨c, o2, s2⟩
            rw [hE] at he
            simp only at he
            subst he
            simp [hE]

/-- C8, the theorem at a concrete input: stopping a running record through
its stop command, with `PrintStatus` set, reports once. -/
theorem C8_status_lines_witness :
    statusReports (ProcessConfigObject (sampleEnv 0 0 true) sampleSys 0
      (runningObj .STOP_COMMAND) false true).2.2.trace = [.SUCCESS] :=
  (C8_status_lines (sampleEnv 0 0 true) sampleSys 0 (runningObj .STOP_COMMAND) false).1
    .SUCCESS (by decide)

/-- C8, counterexample: with `PrintStatus` set, stopping a running record of
stop mode `STOP_NONE` returns `SUCCESS` and starting a record with an empty
start command returns `SUCCESS`, and in both calls nothing at all is handed to
`PerformStatusReport`. -/
theorem C8_counterexample :
    (ProcessConfigObject (sampleEnv 0 0 true) sampleSys 0
      (runningObj .STOP_NONE) false true).1 = .ret .SUCCESS ∧
    statusReports (ProcessConfigObject (sampleEnv 0 0 true) sampleSys 0
      (runningObj .STOP_NONE) false true).2.2.trace = [] ∧
    (ProcessConfigObject (sampleEnv 0 0 true) sampleSys 0
      (sampleObj "" (plainOpts .STOP_COMMAND)) true true).1 = .ret .SUCCESS ∧
    statusReports (ProcessConfigObject (sampleEnv 0 0 true) sampleSys 0
      (sampleObj "" (plainOpts .STOP_COMMAND)) true true).2.2.trace = [] := by
  decide

/-- C9: the exit code `WEXITSTATUS raw` taken from any raw wait status lies in
`0..255` (and every value of that range is the exit code of some raw status),
so the `case -1` label is never reached; the status the launcher returns on
the parent path is the classification of that code, which is `SUCCESS`
exactly for `0`, `WARNING` exactly for `128` and `FAILURE` for every other
code. -/
theorem C9_exit_classification (raw : Int) :
    (0 ≤ WEXITSTATUS raw ∧ WEXITSTATUS raw < 256) ∧
    WEXITSTATUS raw ≠ -1 ∧
    (classifyExit (WEXITSTATUS raw) = .SUCCESS ↔ WEXITSTATUS raw = 0) ∧
    (classifyExit (WEXITSTATUS raw) = .WARNING ↔ WEXITSTATUS raw = 128) ∧
    (classifyExit (WEXITSTATUS raw) = .FAILURE ↔
      (WEXITSTATUS raw ≠ 0 ∧ WEXITSTATUS raw ≠ 128)) ∧
    (∀ c : Int, 0 ≤ c → c < 256 → WEXITSTATUS (c * 256) = c) ∧
    (∀ (env : Env) (s : Sys) (sh : Shell) (ref : Nat) (obj : ObjTable) (pid : Int),
      (parentPath env s sh ref obj pid).1 =
        .ret (classifyExit (WEXITSTATUS (env.waitpid (parentAfterFork s ref obj pid) pid)))) := by
  obtain ⟨h0, h1⟩ := WEXITSTATUS_range raw
  have hm : WEXITSTATUS raw ≠ -1 := by omega
  refine ⟨⟨h0, h1⟩, hm, ?_, ?_, ?_, ?_, ?_⟩
  · unfold classifyExit
    split_ifs <;> simp_all
  · unfold classifyExit
    split_ifs <;> simp_all
  · unfold classifyExit
    split_ifs <;> simp_all
  · intro c hc0 hc1
    unfold WEXITSTATUS
    rw [Int.mul_ediv_cancel c (by norm_num)]
    exact Int.emod_eq_of_lt hc0 hc1
  · intros
    rfl

/-! ## The globals across a call -/

theorem resolveShell_runlevel (env : Env) (s : Sys) :
    (resolveShell env s).2.CurRunlevel = s.CurRunlevel := by
  unfold resolveShell
  split_ifs <;> simp [Sys.log]

/-- The launcher does not touch `CurRunlevel`. -/
theorem ExecuteConfigObject_runlevel (env : Env) (s : Sys) (ref : Nat) (obj : ObjTable)
    (b : Bool) : (ExecuteConfigObject env s ref obj b).2.2.CurRunlevel = s.CurRunlevel := by
  have h := resolveShell_runlevel env s
  unfold ExecuteConfigObject
  simp only
  split_ifs <;>
    simp [forkState, childPath, parentPath, parentAfterFork, parentAfterWait, Sys.log, h] <;>
    split_ifs <;> simp [h]

/-- `ProcessConfigObject` does not touch `CurRunlevel`. -/
theorem ProcessConfigObject_runlevel (env : Env) (s : Sys) (ref : Nat) (obj : ObjTable)
    (b report : Bool) :
    (ProcessConfigObject env s ref obj b report).2.2.CurRunlevel = s.CurRunlevel := by
  have hp : ∀ b2, (printIf report s obj b2).CurRunlevel = s.CurRunlevel := by
    intro b2
    cases report <;> simp [printIf, Sys.log]
  have hE : ∀ s1 : Sys, s1.CurRunlevel = s.CurRunlevel →
      ∀ started : Bool,
      (match ExecuteConfigObject env s1 ref obj b with
        | (.ret ExitStatus, o2, s2) =>
          ((.ret ExitStatus, { o2 with Started := if truthy env ExitStatus then started
              else !started }, reportIf report s2 obj b ExitStatus) : Ctl × ObjTable × Sys)
        | stopped => stopped).2.2.CurRunlevel = s.CurRunlevel := by
    intro s1 h1 started
    have hr := ExecuteConfigObject_runlevel env s1 ref obj b
    rcases hX : ExecuteConfigObject env s1 ref obj b with ⟨c, o2, s2⟩
    rw [hX] at hr
    cases c <;> cases report <;> simp_all [reportIf, Sys.log]
  cases b
  · cases hm : obj.Opts.StopMode
    · simp [ProcessConfigObject, hm]
    · simp [ProcessConfigObject, hm]
    · have := hE (if report then (printIf report s obj false).log .fflush else s)
        (by cases report <;> simp [printIf, Sys.log]) false
      simpa [ProcessConfigObject, hm] using this
    · cases report <;>
        simp [ProcessConfigObject, hm, killAndMark, reportIf, printIf, Sys.log]
    · cases report
      · simp [ProcessConfigObject, hm, killAndMark, reportIf, Sys.log]
      · simp [ProcessConfigObject, hm, killAndMark, reportIf, printIf, Sys.log]
        split_ifs <;> simp
  · by_cases hcmd : obj.ObjectStartCommand = ""
    · simp [ProcessConfigObject, hcmd]
    · by_cases hh : obj.Opts.HaltCmdOnly = true
      · cases report <;> simp [ProcessConfigObject, hcmd, hh, reportIf, Sys.log]
      · by_cases hnw : obj.Opts.NoWait = true
        · cases report <;>
            simp [ProcessConfigObject, hcmd, hh, hnw, reportIf, printIf, Sys.log]
        · have := hE ((printIf report s obj true).log .fflush)
            (by simp [Sys.log, hp]) true
          simpa [ProcessConfigObject, hcmd, hh, hnw] using this

/-! ## The sweeps -/

/-- A start call on a `HaltCmdOnly` record changes nothing in the record, and
adds to the trace at most the report of `FAILURE`. -/
theorem process_haltonly_start (env : Env) (s : Sys) (ref : Nat) (obj : ObjTable)
    (report : Bool) (hhalt : obj.Opts.HaltCmdOnly = true) :
    ProcessConfigObject env s ref obj true report =
      (.ret (if obj.ObjectStartCommand = "" then .SUCCESS else .FAILURE), obj,
        if obj.ObjectStartCommand = "" then s else reportIf report s obj true .FAILURE) := by
  by_cases hcmd : obj.ObjectStartCommand = "" <;>
    simp [ProcessConfigObject, hcmd, hhalt]

theorem objectAt_some (env : Env) (w : World) (rl : Option String) (b : Bool) (p ref : Nat)
    (obj : ObjTable) (h : objectAt env w rl b p = some (ref, obj)) :
    w.ObjectTable[ref]? = some obj := by
  unfold objectAt at h
  split at h
  · simp at h
  · split at h
    · simp at h
    · rename_i hget
      simp only [Option.some.injEq, Prod.mk.injEq] at h
      rw [← h.1, ← h.2]
      exact hget

theorem HaltOnlyKept.refl (t : List ObjTable) : HaltOnlyKept t t :=
  fun _ _ h _ => h

theorem HaltOnlyKept.trans {t1 t2 t3 : List ObjTable} (h12 : HaltOnlyKept t1 t2)
    (h23 : HaltOnlyKept t2 t3) : HaltOnlyKept t1 t3 :=
  fun i obj h hh => h23 i obj (h12 i obj h hh) hh

/-- Writing back the object behind `ref` keeps the `HaltCmdOnly` records, as
long as the object written is the old one when that one is `HaltCmdOnly`. -/
theorem HaltOnlyKept.set (t : List ObjTable) (ref : Nat) (old new : ObjTable)
    (hold : t[ref]? = some old) (hsame : old.Opts.HaltCmdOnly = true → new = old) :
    HaltOnlyKept t (t.set ref new) := by
  intro i obj hi hh
  by_cases hir : ref = i
  · subst hir
    rw [hold] at hi
    simp only [Option.some.injEq] at hi
    subst hi
    rw [hsame hh]
    have hlt : ref < t.length := by
      by_contra hge
      rw [List.getElem?_eq_none (by omega)] at hold
      simp at hold
    exact List.getElem?_set_self hlt
  · rw [List.getElem?_set_ne hir]
    exact hi

theorem callProcess_table (env : Env) (w : World) (p ref : Nat) (obj : ObjTable) (b : Bool) :
    (callProcess env w p ref obj b).2.ObjectTable
      = w.ObjectTable.set ref (ProcessConfigObject env w.sys ref obj b true).2.1 := by
  unfold callProcess
  simp only
  split <;> rfl

theorem callProcess_calls (env : Env) (w : World) (p ref : Nat) (obj : ObjTable) (b : Bool) :
    (callProcess env w p ref obj b).2.calls = w.calls ++ [⟨p, ref, b, w.sys.CurRunlevel⟩] := by
  unfold callProcess
  simp only
  split <;> rfl

theorem callProcess_runlevel (env : Env) (w : World) (p ref : Nat) (obj : ObjTable)
    (b : Bool) : (callProcess env w p ref obj b).2.sys.CurRunlevel = w.sys.CurRunlevel := by
  have h := ProcessConfigObject_runlevel env w.sys ref obj b true
  unfold callProcess
  simp only
  split <;> exact h

/-- A property of the state that every pass of the loop body carries along is
carried along by the whole loop. -/
theorem sweep_invariant (body : World → Nat → Option Ctl × World) (R : World → World → Prop)
    (hrefl : ∀ w, R w w) (htrans : ∀ a b c, R a b → R b c → R a c)
    (hbody : ∀ w p, R w (body w p).2) :
    ∀ (ps : List Nat) (w : World), R w (sweep body ps w).2 := by
  intro ps
  induction ps with
  | nil => intro w; exact hrefl w
  | cons p ps ih =>
    intro w
    have hb := hbody w p
    unfold sweep
    rcases hX : body w p with ⟨c, w1⟩
    rw [hX] at hb
    cases c with
    | none => exact htrans _ _ _ hb (ih w1)
    | some c => exact hb

theorem runAllBody_start_keeps (env : Env) (w : World) (p : Nat) :
    HaltOnlyKept w.ObjectTable (runAllBody env true w p).2.ObjectTable := by
  unfold runAllBody
  split
  · exact HaltOnlyKept.refl _
  · rename_i ref CurObj hat
    have hget := objectAt_some env w _ true p ref CurObj hat
    split_ifs with h1 h2 <;>
      first
      | exact HaltOnlyKept.refl _
      | (rw [callProcess_table]
         refine HaltOnlyKept.set _ ref CurObj _ hget ?_
         intro hh
         simp [hh] at h2)

theorem switchStopBody_keeps (env : Env) (target : String) (w : World) (p : Nat) :
    HaltOnlyKept w.ObjectTable (switchStopBody env target w p).2.ObjectTable := by
  unfold switchStopBody
  split
  · exact HaltOnlyKept.refl _
  · rename_i ref TObj hat
    have hget := objectAt_some env w _ false p ref TObj hat
    split_ifs with h1
    · rw [callProcess_table]
      refine HaltOnlyKept.set _ ref TObj _ hget ?_
      intro hh
      simp [hh] at h1
    · exact HaltOnlyKept.refl _

theorem switchStartBody_keeps (env : Env) (w : World) (p : Nat) :
    HaltOnlyKept w.ObjectTable (switchStartBody env w p).2.ObjectTable := by
  unfold switchStartBody
  split
  · exact HaltOnlyKept.refl _
  · rename_i ref TObj hat
    have hget := objectAt_some env w _ true p ref TObj hat
    split_ifs with h1
    · rw [callProcess_table]
      refine HaltOnlyKept.set _ ref TObj _ hget ?_
      intro hh
      rw [process_haltonly_start env w.sys ref TObj true hh]
    · exact HaltOnlyKept.refl _

/-- The start sweep of `RunAllObjects` leaves every `HaltCmdOnly` record as it was. -/
theorem RunAllObjects_start_keeps (env : Env) (w : World) :
    HaltOnlyKept w.ObjectTable (RunAllObjects env w true).2.ObjectTable := by
  unfold RunAllObjects
  simp only
  split_ifs
  · exact HaltOnlyKept.refl _
  · have h := sweep_invariant (runAllBody env true)
      (fun a b => HaltOnlyKept a.ObjectTable b.ObjectTable)
      (fun a => HaltOnlyKept.refl _) (fun _ _ _ h1 h2 => h1.trans h2)
      (runAllBody_start_keeps env)
      (List.range' 1 (env.GetHighestPriority w.ObjectTable true))
      (w.setBootMode .BOOT_BOOTUP)
    simp only [World.setBootMode] at h ⊢
    split <;> simp_all

/-- `SwitchRunlevels`, both phases, leaves every `HaltCmdOnly` record as it was. -/
theorem SwitchRunlevels_keeps (env : Env) (w : World) (target : String) :
    HaltOnlyKept w.ObjectTable (SwitchRunlevels env w target).2.ObjectTable := by
  unfold SwitchRunlevels
  split_ifs
  · exact HaltOnlyKept.refl _
  · have h1 := sweep_invariant (switchStopBody env target)
      (fun a b => HaltOnlyKept a.ObjectTable b.ObjectTable)
      (fun a => HaltOnlyKept.refl _) (fun _ _ _ h1 h2 => h1.trans h2)
      (switchStopBody_keeps env target)
      (List.range' 1 (env.GetHighestPriority w.ObjectTable false)) w
    rcases hX : sweep (switchStopBody env target)
      (List.range' 1 (env.GetHighestPriority w.ObjectTable false)) w with ⟨c, w1⟩
    rw [hX] at h1
    cases c with
    | some c => exact h1
    | none =>
      simp only
      have h2 := sweep_invariant (switchStartBody env)
        (fun a b => HaltOnlyKept a.ObjectTable b.ObjectTable)
        (fun a => HaltOnlyKept.refl _) (fun _ _ _ h1 h2 => h1.trans h2)
        (switchStartBody_keeps env)
        (List.range' 1 (env.GetHighestPriority (w1.setRunlevel env target).ObjectTable true))
        (w1.setRunlevel env target)
      rcases hY : sweep (switchStartBody env)
        (List.range' 1 (env.GetHighestPriority (w1.setRunlevel env target).ObjectTable true))
        (w1.setRunlevel env target) with ⟨c2, w3⟩
      rw [hY] at h2
      have h3 : HaltOnlyKept w.ObjectTable w3.ObjectTable := h1.trans h2
      cases c2 <;> exact h3

/-- A reporting call returns whenever `vfork` answers with a child pid. -/
theorem ProcessConfigObject_returns (env : Env) (s : Sys) (ref : Nat) (obj : ObjTable)
    (b : Bool) (hfork : ∀ t, 0 < env.fork t) :
    ∃ st, (ProcessConfigObject env s ref obj b true).1 = .ret st := by
  have hE : ∀ s1 b2, ∃ e o2 s2, ExecuteConfigObject env s1 ref obj b2 = (.ret e, o2, s2) := by
    intro s1 b2
    obtain ⟨e, he⟩ := ExecuteConfigObject_returns env s1 ref obj b2 hfork
    rcases hX : ExecuteConfigObject env s1 ref obj b2 with ⟨c, o2, s2⟩
    rw [hX] at he
    simp only at he
    subst he
    exact ⟨e, o2, s2, rfl⟩
  cases b
  · cases hm : obj.Opts.StopMode
    · simp [ProcessConfigObject, hm]
    · simp [ProcessConfigObject, hm]
    · obtain ⟨e, o2, s2, hX⟩ := hE ((printIf true s obj false).log .fflush) false
      simp [ProcessConfigObject, hm, hX]
    · simp [ProcessConfigObject, hm, killAndMark]
    · by_cases hread : env.ReadPIDFile ((printIf true s obj false).log .fflush) obj = 0 <;>
        simp [ProcessConfigObject, hm, hread, killAndMark]
  · by_cases hcmd : obj.ObjectStartCommand = ""
    · simp [ProcessConfigObject, hcmd]
    · by_cases hh : obj.Opts.HaltCmdOnly = true
      · simp [ProcessConfigObject, hcmd, hh]
      · by_cases hnw : obj.Opts.NoWait = true
        · simp [ProcessConfigObject, hcmd, hh, hnw]
        · obtain ⟨e, o2, s2, hX⟩ := hE ((printIf true s obj true).log .fflush) true
          simp [ProcessConfigObject, hcmd, hh, hnw, hX]

theorem callProcess_returns (env : Env) (w : World) (p ref : Nat) (obj : ObjTable) (b : Bool)
    (hfork : ∀ t, 0 < env.fork t) : (callProcess env w p ref obj b).1 = none := by
  obtain ⟨st, hst⟩ := ProcessConfigObject_returns env w.sys ref obj b hfork
  unfold callProcess
  simp only [hst]

/-- A loop whose body always comes back runs to its end. -/
theorem sweep_returns (body : World → Nat → Option Ctl × World)
    (hbody : ∀ w p, (body w p).1 = none) :
    ∀ (ps : List Nat) (w : World), (sweep body ps w).1 = none := by
  intro ps
  induction ps with
  | nil => intro w; rfl
  | cons p ps ih =>
    intro w
    have hb := hbody w p
    unfold sweep
    rcases hX : body w p with ⟨c, w1⟩
    rw [hX] at hb
    simp only at hb
    subst hb
    exact ih w1

/-- What a loop adds to the record of calls, when each pass of its body adds
at most one call, made in direction `b` at the priority of the pass, and
leaves `CurRunlevel` alone. -/
theorem sweep_calls (b : Bool) (body : World → Nat → Option Ctl × World)
    (hbody : ∀ w p, (body w p).2.sys.CurRunlevel = w.sys.CurRunlevel ∧
      ((body w p).2.calls = w.calls ∨
        ∃ ref, (body w p).2.calls = w.calls ++ [⟨p, ref, b, w.sys.CurRunlevel⟩])) :
    ∀ (ps : List Nat) (w : World),
      (sweep body ps w).2.sys.CurRunlevel = w.sys.CurRunlevel ∧
      ∃ new : List Call, (sweep body ps w).2.calls = w.calls ++ new ∧
        (new.map Call.priority).Sublist ps ∧
        ∀ c ∈ new, c.IsStartingMode = b ∧ c.CurRunlevel = w.sys.CurRunlevel := by
  intro ps
  induction ps with
  | nil =>
    intro w
    exact ⟨rfl, [], by simp [sweep], by simp, by simp⟩
  | cons p ps ih =>
    intro w
    obtain ⟨hrl, hcalls⟩ := hbody w p
    unfold sweep
    rcases hX : body w p with ⟨c, w1⟩
    rw [hX] at hrl hcalls
    simp only at hrl hcalls
    cases c with
    | some c =>
      refine ⟨hrl, ?_⟩
      rcases hcalls with h | ⟨ref, h⟩
      · exact ⟨[], by simp [h], by simp, by simp⟩
      · exact ⟨[⟨p, ref, b, w.sys.CurRunlevel⟩], h, by simp, by simp⟩
    | none =>
      obtain ⟨hrl2, new, hnew, hsub, hall⟩ := ih w1
      refine ⟨by simp only [hrl2, hrl], ?_⟩
      rcases hcalls with h | ⟨ref, h⟩
      · refine ⟨new, by simp only [hnew, h], hsub.trans (List.sublist_cons_self p ps), ?_⟩
        intro c hc
        rw [← hrl]
        exact hall c hc
      · refine ⟨⟨p, ref, b, w.sys.CurRunlevel⟩ :: new, by simp [hnew, h], ?_, ?_⟩
        · simpa using hsub
        · intro c hc
          rcases List.mem_cons.1 hc with hc | hc
          · subst hc
            exact ⟨rfl, rfl⟩
          · rw [← hrl]
            exact hall c hc

theorem switchStopBody_calls (env : Env) (target : String) (w : World) (p : Nat) :
    (switchStopBody env target w p).2.sys.CurRunlevel = w.sys.CurRunlevel ∧
    ((switchStopBody env target w p).2.calls = w.calls ∨
      ∃ ref, (switchStopBody env target w p).2.calls
        = w.calls ++ [⟨p, ref, false, w.sys.CurRunlevel⟩]) := by
  unfold switchStopBody
  split
  · exact ⟨rfl, Or.inl rfl⟩
  · rename_i ref TObj hat
    split_ifs
    · exact ⟨callProcess_runlevel _ _ _ _ _ _, Or.inr ⟨ref, callProcess_calls _ _ _ _ _ _⟩⟩
    · exact ⟨rfl, Or.inl rfl⟩

theorem switchStartBody_calls (env : Env) (w : World) (p : Nat) :
    (switchStartBody env w p).2.sys.CurRunlevel = w.sys.CurRunlevel ∧
    ((switchStartBody env w p).2.calls = w.calls ∨
      ∃ ref, (switchStartBody env w p).2.calls
        = w.calls ++ [⟨p, ref, true, w.sys.CurRunlevel⟩]) := by
  unfold switchStartBody
  split
  · exact ⟨rfl, Or.inl rfl⟩
  · rename_i ref TObj hat
    split_ifs
    · exact ⟨callProcess_runlevel _ _ _ _ _ _, Or.inr ⟨ref, callProcess_calls _ _ _ _ _ _⟩⟩
    · exact ⟨rfl, Or.inl rfl⟩

theorem switchStopBody_returns (env : Env) (target : String) (hfork : ∀ t, 0 < env.fork t)
    (w : World) (p : Nat) : (switchStopBody env target w p).1 = none := by
  unfold switchStopBody
  split
  · rfl
  · split_ifs
    · exact callProcess_returns _ _ _ _ _ _ hfork
    · rfl

theorem switchStartBody_returns (env : Env) (hfork : ∀ t, 0 < env.fork t)
    (w : World) (p : Nat) : (switchStartBody env w p).1 = none := by
  unfold switchStartBody
  split
  · rfl
  · split_ifs
    · exact callProcess_returns _ _ _ _ _ _ hfork
    · rfl

theorem callProcess_lost (env : Env) (w : World) (p ref : Nat) (obj : ObjTable) (b : Bool)
    (st : rStatus) : (callProcess env w p ref obj b).1 ≠ some (.ret st) := by
  unfold callProcess
  simp only
  split
  · simp
  · rename_i c hc
    intro h
    simp only [Option.some.injEq] at h
    exact hc st h

/-- A loop that ends early does so because control was lost, never with a
status. -/
theorem sweep_lost (body : World → Nat → Option Ctl × World)
    (hbody : ∀ w p st, (body w p).1 ≠ some (.ret st)) :
    ∀ (ps : List Nat) (w : World) (st : rStatus), (sweep body ps w).1 ≠ some (.ret st) := by
  intro ps
  induction ps with
  | nil => intro w st; simp [sweep]
  | cons p ps ih =>
    intro w st
    have hb := hbody w p st
    unfold sweep
    rcases hX : body w p with ⟨c, w1⟩
    rw [hX] at hb
    cases c with
    | none => exact ih w1 st
    | some c => exact hb

theorem switchStopBody_lost (env : Env) (target : String) (w : World) (p : Nat)
    (st : rStatus) : (switchStopBody env target w p).1 ≠ some (.ret st) := by
  unfold switchStopBody
  split
  · simp
  · split_ifs
    · exact callProcess_lost _ _ _ _ _ _ _
    · simp

theorem switchStartBody_lost (env : Env) (w : World) (p : Nat) (st : rStatus) :
    (switchStartBody env w p).1 ≠ some (.ret st) := by
  unfold switchStartBody
  split
  · simp
  · split_ifs
    · exact callProcess_lost _ _ _ _ _ _ _
    · simp

/-- A text shorter than the buffer is copied whole. -/
theorem snprintf_of_lt (size : Nat) (text : String) (h : text.length < size) :
    snprintf size text = text := by
  unfold snprintf
  have hl : text.data.length ≤ size - 1 := by
    have : text.data.length = text.length := rfl
    omega
  rw [List.take_of_length_le hl]

/-- A text that does not fit the buffer is not copied whole. -/
theorem snprintf_ne_of_le (size : Nat) (text : String) (h : size ≤ text.length)
    (hpos : 0 < text.length) : snprintf size text ≠ text := by
  intro heq
  have hlen : (snprintf size text).length = text.length := by rw [heq]
  have h2 : (snprintf size text).length = (text.data.take (size - 1)).length := rfl
  have h3 : text.data.length = text.length := rfl
  rw [List.length_take] at h2
  omega

/-! ## Runlevel switches -/

/-- C5: a start call on a `HaltCmdOnly` record returns with the record exactly
as it was (`Started` and `ObjectPID` included), forks nothing and creates no
detached thread; and the start sweep of `RunAllObjects` as well as the whole of
`SwitchRunlevels` (its start phase included) leave every `HaltCmdOnly` record
of the table exactly as it was, so none of them turns `Started` from false to
true. -/
theorem C5_haltonly_never_started (env : Env) (s : Sys) (ref : Nat) (obj : ObjTable)
    (report : Bool) (w : World) (target : String) (i : Nat)
    (hhalt : obj.Opts.HaltCmdOnly = true) (hi : w.ObjectTable[i]? = some obj) :
    (ProcessConfigObject env s ref obj true report).2.1 = obj ∧
    (∃ st, (ProcessConfigObject env s ref obj true report).1 = .ret st) ∧
    forkedPids (ProcessConfigObject env s ref obj true report).2.2.trace = forkedPids s.trace ∧
    detachedRefs (ProcessConfigObject env s ref obj true report).2.2.trace
      = detachedRefs s.trace ∧
    (RunAllObjects env w true).2.ObjectTable[i]? = some obj ∧
    (SwitchRunlevels env w target).2.ObjectTable[i]? = some obj := by
  have h := process_haltonly_start env s ref obj report hhalt
  refine ⟨by rw [h], ⟨_, by rw [h]⟩, ?_, ?_, ?_, ?_⟩
  · rw [h]
    by_cases hcmd : obj.ObjectStartCommand = "" <;> cases report <;>
      simp [hcmd, reportIf, Sys.log, forkedPids_append, forkedPids]
  · rw [h]
    by_cases hcmd : obj.ObjectStartCommand = "" <;> cases report <;>
      simp [hcmd, reportIf, Sys.log, detachedRefs_append, detachedRefs]
  · exact RunAllObjects_start_keeps env w i obj hi hhalt
  · exact SwitchRunlevels_keeps env w target i obj hi hhalt

/-- C5, at a concrete input: a table with an enabled, not started
`HaltCmdOnly` record bound to priority `1`; after the switch to `default` the
record is still not started. -/
theorem C5_haltonly_never_started_witness :
    (SwitchRunlevels (sampleEnv 0 0 true)
      (sampleWorld [sampleObj "svc start" (haltOnlyOpts .STOP_COMMAND),
        sampleObj "other" (plainOpts .STOP_NONE)]) "default").2.ObjectTable[0]?
      = some (sampleObj "svc start" (haltOnlyOpts .STOP_COMMAND)) :=
  (C5_haltonly_never_started (sampleEnv 0 0 true) sampleSys 0
    (sampleObj "svc start" (haltOnlyOpts .STOP_COMMAND)) true
    (sampleWorld [sampleObj "svc start" (haltOnlyOpts .STOP_COMMAND),
      sampleObj "other" (plainOpts .STOP_NONE)]) "default" 0
    (by decide) (by decide)).2.2.2.2.2

/-- C6: when none of the nodes the counting loop visits (every node but the
one that ends the chain) is at once enabled, not `HaltCmdOnly`, of start
priority above zero and a member of `target`, `SwitchRunlevels` returns
`FAILURE` and the state is the one it started from: no call of
`ProcessConfigObject` was made, `CurRunlevel`, the trace and every record are
unchanged. -/
theorem C6_switch_without_eligible (env : Env) (w : World) (target : String)
    (hnone : ∀ obj ∈ w.ObjectTable.dropLast,
      ¬ (obj.Enabled = true ∧ obj.Opts.HaltCmdOnly = false ∧ 0 < obj.ObjectStartPriority ∧
          env.ObjRL_CheckRunlevel target obj = true)) :
    SwitchRunlevels env w target = (.ret .FAILURE, w) := by
  have h0 : NumInRunlevel env w target = 0 := by
    unfold NumInRunlevel
    rw [List.length_eq_zero, List.filter_eq_nil_iff]
    intro obj hobj hin
    apply hnone obj hobj
    simp only [inRunlevel, Bool.and_eq_true, Bool.not_eq_true', decide_eq_true_eq] at hin
    exact ⟨hin.1.2, hin.1.1.1, hin.2, hin.1.1.2⟩
  unfold SwitchRunlevels
  rw [if_pos h0]

/-- C6, at a concrete input: no record of the table is a member of
`multiuser`; the switch fails and the runlevel stays `default`. -/
theorem C6_switch_without_eligible_witness :
    SwitchRunlevels (sampleEnv 0 0 true)
      (sampleWorld [sampleObj "svc start" (plainOpts .STOP_COMMAND)]) "multiuser"
      = (.ret .FAILURE, sampleWorld [sampleObj "svc start" (plainOpts .STOP_COMMAND)]) :=
  C6_switch_without_eligible (sampleEnv 0 0 true)
    (sampleWorld [sampleObj "svc start" (plainOpts .STOP_COMMAND)]) "multiuser" (by decide)

/-- A runlevel that passes the counting loop matches some record. -/
theorem exists_match_of_NumInRunlevel (env : Env) (w : World) (target : String)
    (hnum : NumInRunlevel env w target ≠ 0) :
    ∃ obj, env.ObjRL_CheckRunlevel target obj = true := by
  unfold NumInRunlevel at hnum
  rw [Ne, List.length_eq_zero, List.filter_eq_nil_iff] at hnum
  push_neg at hnum
  obtain ⟨obj, _, hin⟩ := hnum
  simp only [inRunlevel, Bool.and_eq_true, Bool.not_eq_true', decide_eq_true_eq] at hin
  exact ⟨obj, hin.1.1.2⟩

/-- C7: in a run of `SwitchRunlevels` that passes the counting loop, the calls
of `ProcessConfigObject` it makes are a block of stop calls followed by a
block of start calls. The stop calls are made at strictly ascending stop
priorities while `CurRunlevel` still has its old value; the start calls are
made at strictly ascending start priorities with `CurRunlevel` already equal
to `target`; a run that returns, returns `SUCCESS` with `CurRunlevel` equal to
`target`, and the run does return whenever `vfork` answers with a child pid.
(`hnames`: a runlevel matches a record only if it is a name short enough for
the buffers of size `MAX_DESCRIPT_SIZE` runlevel names are kept in.) -/
theorem C7_switch_stops_before_starts (env : Env) (w : World) (target : String)
    (hnum : NumInRunlevel env w target ≠ 0)
    (hnames : ∀ obj, env.ObjRL_CheckRunlevel target obj = true →
      target.length < env.MAX_DESCRIPT_SIZE) :
    (∃ stops starts : List Call,
      (SwitchRunlevels env w target).2.calls = w.calls ++ stops ++ starts ∧
      (∀ c ∈ stops, c.IsStartingMode = false ∧ c.CurRunlevel = w.sys.CurRunlevel) ∧
      (∀ c ∈ starts, c.IsStartingMode = true ∧ c.CurRunlevel = target) ∧
      (stops.map Call.priority).Pairwise (fun a b => a < b) ∧
      (starts.map Call.priority).Pairwise (fun a b => a < b)) ∧
    (∀ st, (SwitchRunlevels env w target).1 = .ret st →
      st = .SUCCESS ∧ (SwitchRunlevels env w target).2.sys.CurRunlevel = target) ∧
    ((∀ t, 0 < env.fork t) → (SwitchRunlevels env w target).1 = .ret .SUCCESS) := by
  obtain ⟨objm, hobjm⟩ := exists_match_of_NumInRunlevel env w target hnum
  have hcopy : snprintf env.MAX_DESCRIPT_SIZE target = target :=
    snprintf_of_lt _ _ (hnames objm hobjm)
  have hsorted : ∀ (l : List Call) (n : Nat), (l.map Call.priority).Sublist (List.range' 1 n) →
      (l.map Call.priority).Pairwise (fun a b => a < b) :=
    fun l n hsub => List.Pairwise.sublist hsub (List.pairwise_lt_range' 1 n)
  obtain ⟨hrl1, stops, hstops, hsub1, hall1⟩ :=
    sweep_calls false (switchStopBody env target) (switchStopBody_calls env target)
      (List.range' 1 (env.GetHighestPriority w.ObjectTable false)) w
  have hret1 := fun hfork => sweep_returns (switchStopBody env target)
    (switchStopBody_returns env target hfork)
    (List.range' 1 (env.GetHighestPriority w.ObjectTable false)) w
  have hlost1 := sweep_lost (switchStopBody env target) (switchStopBody_lost env target)
    (List.range' 1 (env.GetHighestPriority w.ObjectTable false)) w
  unfold SwitchRunlevels
  rw [if_neg hnum]
  rcases hX : sweep (switchStopBody env target)
    (List.range' 1 (env.GetHighestPriority w.ObjectTable false)) w with ⟨c, w1⟩
  rw [hX] at hrl1 hstops hret1 hlost1
  simp only at hrl1 hstops hret1 hlost1
  cases c with
  | some c =>
    refine ⟨⟨stops, [], by simp [hstops], hall1, by simp, hsorted _ _ hsub1, by simp⟩, ?_, ?_⟩
    · intro st hst
      simp only at hst
      subst hst
      exact absurd rfl (hlost1 st)
    · intro hfork
      have := hret1 hfork
      simp at this
  | none =>
    simp only
    obtain ⟨hrl2, starts, hstarts, hsub2, hall2⟩ :=
      sweep_calls true (switchStartBody env) (switchStartBody_calls env)
        (List.range' 1 (env.GetHighestPriority (w1.setRunlevel env target).ObjectTable true))
        (w1.setRunlevel env target)
    have hret2 := fun hfork => sweep_returns (switchStartBody env)
      (switchStartBody_returns env hfork)
      (List.range' 1 (env.GetHighestPriority (w1.setRunlevel env target).ObjectTable true))
      (w1.setRunlevel env target)
    have hlost2 := sweep_lost (switchStartBody env) (switchStartBody_lost env)
      (List.range' 1 (env.GetHighestPriority (w1.setRunlevel env target).ObjectTable true))
      (w1.setRunlevel env target)
    have hset : (w1.setRunlevel env target).sys.CurRunlevel = target := by
      simp [World.setRunlevel, hcopy]
    have hsetc : (w1.setRunlevel env target).calls = w1.calls := rfl
    rcases hY : sweep (switchStartBody env)
      (List.range' 1 (env.GetHighestPriority (w1.setRunlevel env target).ObjectTable true))
      (w1.setRunlevel env target) with ⟨c2, w3⟩
    rw [hY] at hrl2 hstarts hret2 hlost2
    simp only at hrl2 hstarts hret2 hlost2
    rw [hset] at hrl2
    have hcalls : w3.calls = w.calls ++ stops ++ starts := by
      rw [hstarts, hsetc, hstops]
    have hstartsOk : ∀ c ∈ starts, c.IsStartingMode = true ∧ c.CurRunlevel = target := by
      intro c hc
      have := hall2 c hc
      rw [hset] at this
      exact this
    cases c2 with
    | some c2 =>
      refine ⟨⟨stops, starts, hcalls, hall1, hstartsOk, hsorted _ _ hsub1, hsorted _ _ hsub2⟩,
        ?_, ?_⟩
      · intro st hst
        simp only at hst
        subst hst
        exact absurd rfl (hlost2 st)
      · intro hfork
        have := hret2 hfork
        simp at this
    | none =>
      refine ⟨⟨stops, starts, hcalls, hall1, hstartsOk, hsorted _ _ hsub1, hsorted _ _ hsub2⟩,
        ?_, ?_⟩
      · intro st hst
        simp only [Ctl.ret.injEq] at hst
        exact ⟨hst.symm, hrl2⟩
      · intro _
        rfl

/-- C7, at a concrete input: runlevel `default` with a running record, a
switch to `multiuser` where another record waits to be started. -/
theorem C7_switch_stops_before_starts_witness :
    (∃ stops starts : List Call,
      (SwitchRunlevels (sampleEnv 0 0 true)
        (sampleWorld [runningObj .STOP_NONE,
          { sampleObj "b start" (plainOpts .STOP_NONE) with ObjectRunlevels := ["multiuser"] }])
        "multiuser").2.calls
        = (sampleWorld [runningObj .STOP_NONE,
          { sampleObj "b start" (plainOpts .STOP_NONE) with ObjectRunlevels := ["multiuser"] }]
          ).calls ++ stops ++ starts ∧
      (∀ c ∈ stops, c.IsStartingMode = false ∧ c.CurRunlevel = (sampleWorld [runningObj .STOP_NONE,
          { sampleObj "b start" (plainOpts .STOP_NONE) with ObjectRunlevels := ["multiuser"] }]
          ).sys.CurRunlevel) ∧
      (∀ c ∈ starts, c.IsStartingMode = true ∧ c.CurRunlevel = "multiuser") ∧
      (stops.map Call.priority).Pairwise (fun a b => a < b) ∧
      (starts.map Call.priority).Pairwise (fun a b => a < b)) ∧
    (SwitchRunlevels (sampleEnv 0 0 true)
        (sampleWorld [runningObj .STOP_NONE,
          { sampleObj "b start" (plainOpts .STOP_NONE) with ObjectRunlevels := ["multiuser"] }])
        "multiuser").1 = .ret .SUCCESS :=
  ⟨(C7_switch_stops_before_starts (sampleEnv 0 0 true)
      (sampleWorld [runningObj .STOP_NONE,
        { sampleObj "b start" (plainOpts .STOP_NONE) with ObjectRunlevels := ["multiuser"] }])
      "multiuser" (by decide) (fun _ _ => by decide)).1,
   (C7_switch_stops_before_starts (sampleEnv 0 0 true)
      (sampleWorld [runningObj .STOP_NONE,
        { sampleObj "b start" (plainOpts .STOP_NONE) with ObjectRunlevels := ["multiuser"] }])
      "multiuser" (by decide) (fun _ _ => by decide)).2.2
      (fun _ => show (0 : Int) < 100 by decide)⟩

/-- The calls of the sample switch: one stop in runlevel `default`, then one
start in runlevel `multiuser`. -/
theorem sample_switch_calls :
    (SwitchRunlevels (sampleEnv 0 0 true)
        (sampleWorld [runningObj .STOP_NONE,
          { sampleObj "b start" (plainOpts .STOP_NONE) with ObjectRunlevels := ["multiuser"] }])
        "multiuser").2.calls = [⟨1, 0, false, "default"⟩, ⟨1, 1, true, "multiuser"⟩] := by
  decide

/-! ## Calls that do nothing -/

/-- C11: for a record whose start command is empty, `ProcessConfigObject` in
start mode returns `SUCCESS` and hands back the record and the state exactly
as they were, for either value of `PrintStatus`: no field of the record is
changed, nothing is added to the trace (no fork, no detached thread, no
signal, no output) and no global is touched. -/
theorem C11_empty_start_is_noop (env : Env) (s : Sys) (ref : Nat) (obj : ObjTable)
    (report : Bool) (hcmd : obj.ObjectStartCommand = "") :
    ProcessConfigObject env s ref obj true report = (.ret .SUCCESS, obj, s) := by
  simp [ProcessConfigObject, hcmd]

/-- C11, at a concrete input: a running record without a start command. -/
theorem C11_empty_start_is_noop_witness :
    ProcessConfigObject (sampleEnv 256 0 false) sampleSys 0
        { sampleObj "" (plainOpts .STOP_PID) with Started := true, ObjectPID := 77 } true true
      = (.ret .SUCCESS,
          { sampleObj "" (plainOpts .STOP_PID) with Started := true, ObjectPID := 77 },
          sampleSys) :=
  C11_empty_start_is_noop (sampleEnv 256 0 false) sampleSys 0
    { sampleObj "" (plainOpts .STOP_PID) with Started := true, ObjectPID := 77 } true
    (by decide)

/-- C12: for a record with stop mode `STOP_NONE`, `ProcessConfigObject` in stop
mode returns `SUCCESS` with `Started` false, whatever `Started` was and for
either value of `PrintStatus`; every other field of the record and the whole
state are as before: nothing is added to the trace, so there is no launch and
no signal. -/
theorem C12_stop_none (env : Env) (s : Sys) (ref : Nat) (obj : ObjTable) (report : Bool)
    (hmode : obj.Opts.StopMode = .STOP_NONE) :
    ProcessConfigObject env s ref obj false report
      = (.ret .SUCCESS, { obj with Started := false }, s) := by
  simp [ProcessConfigObject, hmode]

/-- C12, at a concrete input: a running record with stop mode `STOP_NONE`. -/
theorem C12_stop_none_witness :
    ProcessConfigObject (sampleEnv 256 0 false) sampleSys 0 (runningObj .STOP_NONE) false true
      = (.ret .SUCCESS, { runningObj .STOP_NONE with Started := false }, sampleSys) :=
  C12_stop_none (sampleEnv 256 0 false) sampleSys 0 (runningObj .STOP_NONE) true (by decide)

/-- C20: for a record with stop mode `STOP_INVALID`, `ProcessConfigObject` in
stop mode returns `FAILURE` (the value `ExitStatus` is initialised with) and
hands back the record and the state exactly as they were, for either value
of `PrintStatus`: `Started` and `ObjectPID` keep their values and nothing is
added to the trace, so there is no launch, no signal and no status line. -/
theorem C20_stop_invalid (env : Env) (s : Sys) (ref : Nat) (obj : ObjTable) (report : Bool)
    (hmode : obj.Opts.StopMode = .STOP_INVALID) :
    ProcessConfigObject env s ref obj false report = (.ret .FAILURE, obj, s) := by
  simp [ProcessConfigObject, hmode]

/-- C20, at a concrete input: a running record with stop mode `STOP_INVALID`. -/
theorem C20_stop_invalid_witness :
    ProcessConfigObject (sampleEnv 0 0 true) sampleSys 0 (runningObj .STOP_INVALID) false true
      = (.ret .FAILURE, runningObj .STOP_INVALID, sampleSys) :=
  C20_stop_invalid (sampleEnv 0 0 true) sampleSys 0 (runningObj .STOP_INVALID) true (by decide)

/-! ## Stopping by signal -/

theorem killCalls_append (a b : List Event) :
    killCalls (a ++ b) = killCalls a ++ killCalls b := by
  induction a with
  | nil => rfl
  | cons e es ih => cases e <;> simp [killCalls, ih]

/-- The state in which a stop that prints starts its work: the text is
printed and flushed only when `PrintStatus` is set. -/
theorem stopBanner_killCalls (s : Sys) (obj : ObjTable) (report : Bool) :
    killCalls (if report then (printIf report s obj false).log .fflush else s).trace
      = killCalls s.trace := by
  cases report <;> simp [printIf, Sys.log, killCalls_append, killCalls]

/-- One `kill`, whose answer decides the status and `Started`. -/
theorem killAndMark_spec (env : Env) (s1 : Sys) (obj : ObjTable) (pid : Nat) (report : Bool)
    (hS : env.rStatusValue .SUCCESS ≠ 0) (hF : env.rStatusValue .FAILURE = 0) :
    ∃ delivered : Bool,
      killCalls (killAndMark env s1 obj pid report).2.2.trace
        = killCalls s1.trace ++ [(toPidT pid, delivered)] ∧
      (killAndMark env s1 obj pid report).1
        = .ret (if delivered then .SUCCESS else .FAILURE) ∧
      ((killAndMark env s1 obj pid report).2.1.Started = false ↔
        (killAndMark env s1 obj pid report).1 = .ret .SUCCESS) := by
  refine ⟨env.kill s1 (toPidT pid), ?_⟩
  cases h : env.kill s1 (toPidT pid) <;> cases report <;>
    simp [killAndMark, h, reportIf, Sys.log, killCalls_append, killCalls, truthy, hS, hF]

theorem process_stop_pid (env : Env) (s : Sys) (ref : Nat) (obj : ObjTable) (report : Bool)
    (hmode : obj.Opts.StopMode = .STOP_PID) :
    ProcessConfigObject env s ref obj false report =
      killAndMark env (if report then (printIf report s obj false).log .fflush else s)
        obj obj.ObjectPID report := by
  simp [ProcessConfigObject, hmode]

theorem process_stop_pidfile (env : Env) (s : Sys) (ref : Nat) (obj : ObjTable)
    (report : Bool) (hmode : obj.Opts.StopMode = .STOP_PIDFILE)
    (hread : env.ReadPIDFile (if report then (printIf report s obj false).log .fflush else s)
      obj ≠ 0) :
    ProcessConfigObject env s ref obj false report =
      killAndMark env
        ((if report then (printIf report s obj false).log .fflush else s).log
          (.ReadPIDFile ref
            (env.ReadPIDFile (if report then (printIf report s obj false).log .fflush else s)
              obj)))
        obj
        (env.ReadPIDFile (if report then (printIf report s obj false).log .fflush else s) obj)
        report := by
  simp only [ProcessConfigObject, hmode]
  simp [hread]

/-- C13: for a record with stop mode `STOP_PID` (`pid` is its `ObjectPID`), and
for a record with stop mode `STOP_PIDFILE` whose pid file yields a positive
`pid`, where `pid` is a process id, one that fits `pid_t` (it is below
`2^31`): `ProcessConfigObject` in stop mode calls `kill` exactly once, and the
pid that call receives is `pid`; it returns `SUCCESS` if the signal was
delivered and `FAILURE` otherwise, and afterwards `Started` is false if and
only if the call returned `SUCCESS` (`SUCCESS` is not, `FAILURE` is the
enumerator of value zero). -/
theorem C13_stop_by_signal (env : Env) (s : Sys) (ref : Nat) (obj : ObjTable) (report : Bool)
    (pid : Nat) (hS : env.rStatusValue .SUCCESS ≠ 0) (hF : env.rStatusValue .FAILURE = 0)
    (hfit : pid < 2 ^ 31)
    (hcase : (obj.Opts.StopMode = .STOP_PID ∧ pid = obj.ObjectPID) ∨
      (obj.Opts.StopMode = .STOP_PIDFILE ∧ 0 < pid ∧
        pid = env.ReadPIDFile
          (if report then (printIf report s obj false).log .fflush else s) obj)) :
    ∃ delivered : Bool,
      killCalls (ProcessConfigObject env s ref obj false report).2.2.trace
        = killCalls s.trace ++ [((pid : Int), delivered)] ∧
      (ProcessConfigObject env s ref obj false report).1
        = .ret (if delivered then .SUCCESS else .FAILURE) ∧
      ((ProcessConfigObject env s ref obj false report).2.1.Started = false ↔
        (ProcessConfigObject env s ref obj false report).1 = .ret .SUCCESS) := by
  have hb := stopBanner_killCalls s obj report
  have hpid := toPidT_of_lt pid hfit
  rcases hcase with ⟨hm, hp⟩ | ⟨hm, hpos, hp⟩
  · subst hp
    rw [process_stop_pid env s ref obj report hm]
    obtain ⟨d, h1, h2, h3⟩ := killAndMark_spec env
      (if report then (printIf report s obj false).log .fflush else s) obj obj.ObjectPID
      report hS hF
    exact ⟨d, by rw [h1, hb, hpid], h2, h3⟩
  · have hread : env.ReadPIDFile
        (if report then (printIf report s obj false).log .fflush else s) obj ≠ 0 := by
      rw [← hp]
      omega
    rw [process_stop_pidfile env s ref obj report hm hread, ← hp]
    obtain ⟨d, h1, h2, h3⟩ := killAndMark_spec env
      ((if report then (printIf report s obj false).log .fflush else s).log
        (.ReadPIDFile ref pid)) obj pid report hS hF
    have hlog : ∀ t : Sys, killCalls (t.log (.ReadPIDFile ref pid)).trace = killCalls t.trace := by
      intro t
      simp [Sys.log, killCalls_append, killCalls]
    refine ⟨d, ?_, h2, h3⟩
    rw [h1, hlog, hb, hpid]

/-- C13, at a concrete input: a running record that is stopped through its
pid file, which holds pid `4711`; the signal is delivered. -/
theorem C13_stop_by_signal_witness :
    ∃ delivered : Bool,
      killCalls (ProcessConfigObject (sampleEnv 0 4711 true) sampleSys 0
        (runningObj .STOP_PIDFILE) false true).2.2.trace
        = killCalls sampleSys.trace ++ [(((4711 : Nat) : Int), delivered)] ∧
      (ProcessConfigObject (sampleEnv 0 4711 true) sampleSys 0
        (runningObj .STOP_PIDFILE) false true).1
        = .ret (if delivered then .SUCCESS else .FAILURE) ∧
      ((ProcessConfigObject (sampleEnv 0 4711 true) sampleSys 0
        (runningObj .STOP_PIDFILE) false true).2.1.Started = false ↔
        (ProcessConfigObject (sampleEnv 0 4711 true) sampleSys 0
          (runningObj .STOP_PIDFILE) false true).1 = .ret .SUCCESS) :=
  C13_stop_by_signal (sampleEnv 0 4711 true) sampleSys 0 (runningObj .STOP_PIDFILE) true 4711
    (by decide) (by decide) (by decide) (Or.inr ⟨by decide, by decide, by decide⟩)

/-- The sample stop through the pid file, evaluated: one `SIGTERM` to `4711`,
`SUCCESS`, not started any more. -/
theorem sample_stop_by_pidfile :
    killCalls (ProcessConfigObject (sampleEnv 0 4711 true) sampleSys 0
      (runningObj .STOP_PIDFILE) false true).2.2.trace = [(4711, true)] ∧
    (ProcessConfigObject (sampleEnv 0 4711 true) sampleSys 0
      (runningObj .STOP_PIDFILE) false true).1 = .ret .SUCCESS ∧
    (ProcessConfigObject (sampleEnv 0 4711 true) sampleSys 0
      (runningObj .STOP_PIDFILE) false true).2.1.Started = false := by
  decide

/-- A pid file holding `4294971007`, a number that does not fit `pid_t`: the
call of `kill` receives the low 32 bits, the pid `3711`. -/
theorem sample_stop_by_oversized_pidfile :
    killCalls (ProcessConfigObject (sampleEnv 0 4294971007 true) sampleSys 0
      (runningObj .STOP_PIDFILE) false true).2.2.trace = [(3711, true)] := by
  decide

/-! ## Full sweeps without priorities -/

theorem errorDiagnostics_append (a b : List Event) :
    errorDiagnostics (a ++ b) = errorDiagnostics a ++ errorDiagnostics b := by
  induction a with
  | nil => rfl
  | cons e es ih => cases e <;> simp [errorDiagnostics, ih]

/-- C14: when the highest start priority is zero, `RunAllObjects` in start mode
returns `FAILURE` after exactly one call of `SpitError`; it made no call of
`ProcessConfigObject`, and `CurrentBootMode`, `CurRunlevel` and the table are
as before. When the highest stop priority is zero, `RunAllObjects` in stop
mode returns `SUCCESS`: it made no call, changed no record and added nothing
to the trace, and `CurrentBootMode` is `BOOT_NEUTRAL`. -/
theorem C14_zero_priority (env : Env) (w : World) :
    (env.GetHighestPriority w.ObjectTable true = 0 →
      (RunAllObjects env w true).1 = .ret .FAILURE ∧
      errorDiagnostics (RunAllObjects env w true).2.sys.trace
        = errorDiagnostics w.sys.trace ++ ["All objects have a priority of zero!"] ∧
      (RunAllObjects env w true).2.calls = w.calls ∧
      (RunAllObjects env w true).2.ObjectTable = w.ObjectTable ∧
      (RunAllObjects env w true).2.sys.CurrentBootMode = w.sys.CurrentBootMode ∧
      (RunAllObjects env w true).2.sys.CurRunlevel = w.sys.CurRunlevel) ∧
    (env.GetHighestPriority w.ObjectTable false = 0 →
      RunAllObjects env w false = (.ret .SUCCESS, w.setBootMode .BOOT_NEUTRAL)) := by
  constructor
  · intro h0
    simp [RunAllObjects, h0, Sys.log, errorDiagnostics_append, errorDiagnostics]
  · intro h0
    simp [RunAllObjects, h0, sweep, World.setBootMode]

/-- C14, at a concrete input: a table whose only record has priority zero in
both directions; the start sweep fails. -/
theorem C14_zero_priority_witness :
    (RunAllObjects (sampleEnv 0 0 true)
      (sampleWorld [{ sampleObj "svc start" (plainOpts .STOP_NONE) with
        ObjectStartPriority := 0, ObjectStopPriority := 0 }]) true).1 = .ret .FAILURE ∧
    RunAllObjects (sampleEnv 0 0 true)
      (sampleWorld [{ sampleObj "svc start" (plainOpts .STOP_NONE) with
        ObjectStartPriority := 0, ObjectStopPriority := 0 }]) false
      = (.ret .SUCCESS, (sampleWorld [{ sampleObj "svc start" (plainOpts .STOP_NONE) with
        ObjectStartPriority := 0, ObjectStopPriority := 0 }]).setBootMode .BOOT_NEUTRAL) :=
  ⟨((C14_zero_priority (sampleEnv 0 0 true)
      (sampleWorld [{ sampleObj "svc start" (plainOpts .STOP_NONE) with
        ObjectStartPriority := 0, ObjectStopPriority := 0 }])).1 (by decide)).1,
   (C14_zero_priority (sampleEnv 0 0 true)
      (sampleWorld [{ sampleObj "svc start" (plainOpts .STOP_NONE) with
        ObjectStartPriority := 0, ObjectStopPriority := 0 }])).2 (by decide)⟩

/-! ## The launcher on the parent path -/

theorem pidFindCalls_append (a b : List Event) :
    pidFindCalls (a ++ b) = pidFindCalls a ++ pidFindCalls b := by
  induction a with
  | nil => rfl
  | cons e es ih => cases e <;> simp [pidFindCalls, ih]

theorem resolveShell_pidFindCalls (env : Env) (s : Sys) :
    pidFindCalls (resolveShell env s).2.trace = pidFindCalls s.trace := by
  unfold resolveShell
  split_ifs <;> simp [Sys.log, pidFindCalls_append, pidFindCalls]

theorem resolveShell_task (env : Env) (s : Sys) :
    (resolveShell env s).2.RunningChildCount = s.RunningChildCount ∧
    (resolveShell env s).2.CurrentTask = s.CurrentTask := by
  unfold resolveShell
  split_ifs <;> simp [Sys.log]

/-- With a child pid from `vfork`, the launcher runs the parent path. -/
theorem ExecuteConfigObject_parent (env : Env) (s : Sys) (ref : Nat) (obj : ObjTable)
    (b : Bool) (hfork : 0 < env.fork (forkState env s)) :
    ExecuteConfigObject env s ref obj b =
      parentPath env ((forkState env s).log (.fork (env.fork (forkState env s))))
        (resolveShell env s).1 ref obj (env.fork (forkState env s)) := by
  unfold ExecuteConfigObject
  simp only
  rw [if_neg (by omega), if_neg (by omega)]

/-- C17: in a launch with child pid `p` from `vfork` (so one that is reaped in
the parent), exactly one call of `AdvancedPIDFind` is made, on the launched
object, and the `ObjectPID` the object carries then is
`p + (0 if the shell dissolves, else 1) + (1 if IsService, else 0)`; the
launch returns with the `ObjectPID` that collaborator answers for the object
so seeded. The pid and the shell are those of the state before the launch,
the same for a start and a stop, and no exit status enters the sum. -/
theorem C17_pid_seed (env : Env) (s : Sys) (ref : Nat) (obj : ObjTable) (b : Bool)
    (hfork : 0 < env.fork (forkState env s)) :
    ((pidSeed (env.fork (forkState env s)) (resolveShell env s).1 obj : Nat) : Int) =
      env.fork (forkState env s) + (if (resolveShell env s).1.ShellDissolves then 0 else 1)
        + (if obj.Opts.IsService then 1 else 0) ∧
    pidFindCalls (ExecuteConfigObject env s ref obj b).2.2.trace =
      pidFindCalls s.trace ++
        [(ref, pidSeed (env.fork (forkState env s)) (resolveShell env s).1 obj)] ∧
    (ExecuteConfigObject env s ref obj b).2.1 =
      { obj with
        ObjectPID :=
          env.AdvancedPIDFind (ExecuteConfigObject env s ref obj b).2.2
            { obj with
              ObjectPID := pidSeed (env.fork (forkState env s)) (resolveShell env s).1 obj } } := by
  have hp := resolveShell_pidFindCalls env s
  refine ⟨?_, ?_, ?_⟩
  · unfold pidSeed
    rw [Nat.cast_add, Nat.cast_add, Int.toNat_of_nonneg (by omega)]
    split_ifs <;> simp
  · rw [ExecuteConfigObject_parent env s ref obj b hfork]
    cases hn : obj.Opts.NoWait <;>
      simp [parentPath, parentAfterFork, parentAfterWait, forkState, Sys.log, hn,
        pidFindCalls_append, pidFindCalls, hp]
  · rw [ExecuteConfigObject_parent env s ref obj b hfork]
    rfl

/-- C17, at a concrete input: a service launched through `bash`, child pid `100`. -/
theorem C17_pid_seed_witness :
    pidFindCalls (ExecuteConfigObject (sampleEnv 256 0 true) sampleSys 3
        (sampleObj "svc start" ⟨false, true, false, false, true, .STOP_PID⟩) false).2.2.trace =
      pidFindCalls sampleSys.trace ++
        [(3, pidSeed ((sampleEnv 256 0 true).fork (forkState (sampleEnv 256 0 true) sampleSys))
          (resolveShell (sampleEnv 256 0 true) sampleSys).1
          (sampleObj "svc start" ⟨false, true, false, false, true, .STOP_PID⟩))] :=
  (C17_pid_seed (sampleEnv 256 0 true) sampleSys 3
    (sampleObj "svc start" ⟨false, true, false, false, true, .STOP_PID⟩) false
    (by decide)).2.1

/-- The sample launch of a service, evaluated: seed `100 + 0 + 1`. -/
theorem sample_service_seed :
    pidFindCalls (ExecuteConfigObject (sampleEnv 256 0 true) sampleSys 3
        (sampleObj "svc start" ⟨false, true, false, false, true, .STOP_PID⟩) false).2.2.trace
      = [(3, 101)] := by
  decide

/-- C18: in a launch with child pid `p` from `vfork`, the state in which the
parent waits (the one `waitpid` is called in, whose answer is classified into
the status returned) has `RunningChildCount` one above its value at entry,
and `CurrentTask` equal to `(object, p)` when the object is not `NoWait`, or
left as it was at entry when it is `NoWait`. When the launch returns,
`RunningChildCount` has its value at entry again, and `CurrentTask` is
`(NULL, 0)` when the object is not `NoWait`, or still as it was at entry when
it is `NoWait`. -/
theorem C18_task_slot_and_count (env : Env) (s : Sys) (ref : Nat) (obj : ObjTable) (b : Bool)
    (hfork : 0 < env.fork (forkState env s)) :
    (ExecuteConfigObject env s ref obj b).1 =
      .ret (classifyExit (WEXITSTATUS (env.waitpid
        (parentAfterFork ((forkState env s).log (.fork (env.fork (forkState env s))))
          ref obj (env.fork (forkState env s)))
        (env.fork (forkState env s))))) ∧
    (parentAfterFork ((forkState env s).log (.fork (env.fork (forkState env s))))
      ref obj (env.fork (forkState env s))).RunningChildCount = s.RunningChildCount + 1 ∧
    (parentAfterFork ((forkState env s).log (.fork (env.fork (forkState env s))))
      ref obj (env.fork (forkState env s))).CurrentTask =
        (if obj.Opts.NoWait then s.CurrentTask
         else ⟨some ref, env.fork (forkState env s)⟩) ∧
    (ExecuteConfigObject env s ref obj b).2.2.RunningChildCount = s.RunningChildCount ∧
    (ExecuteConfigObject env s ref obj b).2.2.CurrentTask =
      (if obj.Opts.NoWait then s.CurrentTask else ⟨none, 0⟩) := by
  obtain ⟨hc, ht⟩ := resolveShell_task env s
  rw [ExecuteConfigObject_parent env s ref obj b hfork]
  refine ⟨rfl, ?_, ?_, ?_, ?_⟩ <;>
    cases hn : obj.Opts.NoWait <;>
    simp [parentPath, parentAfterFork, parentAfterWait, forkState, Sys.log, hn, hc, ht]

/-- C18, at a concrete input: a launch that waits, entered with two children
counted. -/
theorem C18_task_slot_and_count_witness :
    (ExecuteConfigObject (sampleEnv 0 0 true) busySys 5
      (sampleObj "svc start" (plainOpts .STOP_NONE)) true).2.2.RunningChildCount
      = busySys.RunningChildCount :=
  (C18_task_slot_and_count (sampleEnv 0 0 true) busySys 5
    (sampleObj "svc start" (plainOpts .STOP_NONE)) true (by decide)).2.2.2.1

/-- The sample launch, evaluated: during the wait the slot holds the object
and pid `100` and three children are counted. -/
theorem sample_wait_state :
    (parentAfterFork ((forkState (sampleEnv 0 0 true)
        busySys).log (.fork 100)) 5
      (sampleObj "svc start" (plainOpts .STOP_NONE)) 100).CurrentTask = ⟨some 5, 100⟩ ∧
    (parentAfterFork ((forkState (sampleEnv 0 0 true)
        busySys).log (.fork 100)) 5
      (sampleObj "svc start" (plainOpts .STOP_NONE)) 100).RunningChildCount = 3 := by
  decide

/-! ## The shell probe -/

theorem warnings_append (a b : List Event) :
    warnings (a ++ b) = warnings a ++ warnings b := by
  induction a with
  | nil => rfl
  | cons e es ih => cases e <;> simp [warnings, ih]

/-- The probe answers as the specification words it. -/
theorem resolveShell_eq_specShell (env : Env) (s : Sys) :
    (resolveShell env s).1 = specShell (env.fopen s) := by
  unfold resolveShell specShell shellCandidates FileUsable
  cases h1 : env.fopen s "/bin/bash" <;> cases h2 : env.fopen s "/bin/dash" <;>
    cases h3 : env.fopen s "/bin/zsh" <;> cases h4 : env.fopen s "/bin/csh" <;>
    cases h5 : env.fopen s "/bin/busybox" <;> cases h6 : s.DidWarn <;>
    simp [List.find?, h1, h2, h3, h4, h5]

/-- Without any known shell, the probe warns unless it has warned before, and
has warned afterwards. -/
theorem resolveShell_warns (env : Env) (s : Sys)
    (hnone : ∀ t c, c ∈ shellCandidates → env.fopen t c.1 = false) :
    (resolveShell env s).1 = ⟨"sh", false⟩ ∧
    (resolveShell env s).2.DidWarn = true ∧
    warnings (resolveShell env s).2.trace =
      warnings s.trace ++ (if s.DidWarn then [] else [noShellWarning]) := by
  have h1 := hnone s ("/bin/bash", ⟨"bash", true⟩) (by simp [shellCandidates])
  have h2 := hnone s ("/bin/dash", ⟨"dash", true⟩) (by simp [shellCandidates])
  have h3 := hnone s ("/bin/zsh", ⟨"zsh", true⟩) (by simp [shellCandidates])
  have h4 := hnone s ("/bin/csh", ⟨"csh", true⟩) (by simp [shellCandidates])
  have h5 := hnone s ("/bin/busybox", ⟨"busybox", false⟩) (by simp [shellCandidates])
  simp only at h1 h2 h3 h4 h5
  cases h6 : s.DidWarn <;>
    simp [resolveShell, FileUsable, h1, h2, h3, h4, h5, h6, Sys.log, warnings_append, warnings]

/-- After the probe, a launch neither warns nor touches `DidWarn`. -/
theorem ExecuteConfigObject_warns (env : Env) (s : Sys) (ref : Nat) (obj : ObjTable) (b : Bool) :
    (ExecuteConfigObject env s ref obj b).2.2.DidWarn = (resolveShell env s).2.DidWarn ∧
    warnings (ExecuteConfigObject env s ref obj b).2.2.trace
      = warnings (resolveShell env s).2.trace := by
  unfold ExecuteConfigObject
  simp only
  split_ifs <;>
    simp [forkState, childPath, parentPath, parentAfterFork, parentAfterWait, Sys.log,
      warnings_append, warnings] <;>
    split_ifs <;> simp [warnings_append, warnings]

/-- Without any known shell, a sequence of launches warns once in all, unless
it is empty or the warning was given before. -/
theorem launchAll_warns (env : Env)
    (hnone : ∀ t c, c ∈ shellCandidates → env.fopen t c.1 = false) :
    ∀ (ls : List (Nat × ObjTable × Bool)) (s : Sys),
      warnings (launchAll env ls s).trace =
        warnings s.trace ++ (if s.DidWarn = true ∨ ls = [] then [] else [noShellWarning]) := by
  intro ls
  induction ls with
  | nil => intro s; simp [launchAll]
  | cons l rest ih =>
    intro s
    obtain ⟨ref, obj, b⟩ := l
    obtain ⟨_, hd, hw⟩ := resolveShell_warns env s hnone
    obtain ⟨hd2, hw2⟩ := ExecuteConfigObject_warns env s ref obj b
    rw [hd] at hd2
    rw [hw] at hw2
    unfold launchAll
    rcases hX : ExecuteConfigObject env s ref obj b with ⟨c, o2, s1⟩
    rw [hX] at hd2 hw2
    simp only at hd2 hw2
    cases c with
    | ret st =>
      simp only
      rw [ih s1, hw2, hd2]
      cases s.DidWarn <;> simp
    | emergency =>
      simp only
      rw [hw2]
      cases s.DidWarn <;> simp
    | child =>
      simp only
      rw [hw2]
      cases s.DidWarn <;> simp

/-- C19: the shell probe selects the first of `/bin/bash`, `/bin/dash`,
`/bin/zsh`, `/bin/csh`, `/bin/busybox` that can be opened, as the
specification words it, whatever files exist; the shell selected dissolves if
and only if it is `bash`, `dash`, `zsh` or `csh` (so not for `busybox`); when
none can be opened the shell is `sh`, not dissolving, and a sequence of one
or more launches by a thread that has not warned yet adds the warning about
no known shell to the trace exactly once. -/
theorem C19_shell_probe (env : Env) (s : Sys) (ls : List (Nat × ObjTable × Bool)) :
    (resolveShell env s).1 = specShell (env.fopen s) ∧
    ((resolveShell env s).1.ShellDissolves = true ↔
      (resolveShell env s).1.ShellPath ∈ ["bash", "dash", "zsh", "csh"]) ∧
    ((resolveShell env s).1.ShellPath = "busybox" → (resolveShell env s).1.ShellDissolves = false) ∧
    ((∀ t c, c ∈ shellCandidates → env.fopen t c.1 = false) →
      (resolveShell env s).1 = ⟨"sh", false⟩ ∧
      (s.DidWarn = false → ls ≠ [] →
        warnings (launchAll env ls s).trace = warnings s.trace ++ [noShellWarning])) := by
  refine ⟨resolveShell_eq_specShell env s, ?_, ?_, ?_⟩
  · unfold resolveShell
    split_ifs <;> simp
  · unfold resolveShell
    split_ifs <;> simp
  · intro hnone
    refine ⟨(resolveShell_warns env s hnone).1, ?_⟩
    intro hd hne
    rw [launchAll_warns env hnone ls s]
    simp [hd, hne]

/-- C19, at concrete inputs: with only `/bin/bash` on the file system the
probe selects `bash`; without any shell, three launches in a row warn once. -/
theorem C19_shell_probe_witness :
    (resolveShell (sampleEnv 0 0 true) sampleSys).1 = ⟨"bash", true⟩ ∧
    warnings (launchAll { sampleEnv 0 0 true with fopen := fun _ _ => false }
      [(0, sampleObj "a" (plainOpts .STOP_NONE), true),
       (1, sampleObj "b" (plainOpts .STOP_NONE), true),
       (0, sampleObj "a" (plainOpts .STOP_NONE), false)] sampleSys).trace
      = warnings sampleSys.trace ++ [noShellWarning] :=
  ⟨(C19_shell_probe (sampleEnv 0 0 true) sampleSys []).1.trans (by decide),
   ((C19_shell_probe { sampleEnv 0 0 true with fopen := fun _ _ => false } sampleSys
      [(0, sampleObj "a" (plainOpts .STOP_NONE), true),
       (1, sampleObj "b" (plainOpts .STOP_NONE), true),
       (0, sampleObj "a" (plainOpts .STOP_NONE), false)]).2.2.2 (fun _ _ _ => rfl)).2
      (by decide) (by decide)⟩

/-! ## What a call leaves of a record -/

/-- The launcher changes nothing in a record but `ObjectPID`. -/
theorem ExecuteConfigObject_config (env : Env) (s : Sys) (ref : Nat) (obj : ObjTable)
    (b : Bool) : config (ExecuteConfigObject env s ref obj b).2.1 = config obj := by
  unfold ExecuteConfigObject
  simp only
  split_ifs <;> simp [parentPath, config]

/-- `ProcessConfigObject` changes nothing in a record but `Started` and `ObjectPID`. -/
theorem ProcessConfigObject_config (env : Env) (s : Sys) (ref : Nat) (obj : ObjTable)
    (b report : Bool) : config (ProcessConfigObject env s ref obj b report).2.1 = config obj := by
  have hE : ∀ (s1 : Sys) (started : Bool),
      config (match ExecuteConfigObject env s1 ref obj b with
        | (.ret ExitStatus, o2, s2) =>
          ((.ret ExitStatus, { o2 with Started := if truthy env ExitStatus then started
              else !started }, reportIf report s2 obj b ExitStatus) : Ctl × ObjTable × Sys)
        | stopped => stopped).2.1 = config obj := by
    intro s1 started
    have hr := ExecuteConfigObject_config env s1 ref obj b
    rcases hX : ExecuteConfigObject env s1 ref obj b with ⟨c, o2, s2⟩
    rw [hX] at hr
    cases c <;> simp_all [config]
  cases b
  · cases hm : obj.Opts.StopMode
    · simp [ProcessConfigObject, hm, config]
    · simp [ProcessConfigObject, hm]
    · have := hE (if report then (printIf report s obj false).log .fflush else s) false
      simpa [ProcessConfigObject, hm] using this
    · simp [ProcessConfigObject, hm, killAndMark, config]
    · cases report
      · simp [ProcessConfigObject, hm, killAndMark, config]
      · simp only [ProcessConfigObject, hm, killAndMark, Bool.false_and, Bool.false_eq_true,
          ↓reduceIte, and_true]
        split_ifs <;> simp [config]
  · by_cases hcmd : obj.ObjectStartCommand = ""
    · simp [ProcessConfigObject, hcmd]
    · by_cases hh : obj.Opts.HaltCmdOnly = true
      · simp [ProcessConfigObject, hcmd, hh]
      · by_cases hnw : obj.Opts.NoWait = true
        · simp [ProcessConfigObject, hcmd, hh, hnw, config]
        · have := hE ((printIf report s obj true).log .fflush) true
          simpa [ProcessConfigObject, hcmd, hh, hnw] using this

/-! ## Full sweeps -/

theorem set_of_getElem? {α : Type} (l : List α) (i : Nat) (a : α) (h : l[i]? = some a) :
    l.set i a = l := by
  induction l generalizing i with
  | nil => rfl
  | cons x xs ih =>
    cases i with
    | zero =>
      simp only [List.getElem?_cons_zero, Option.some.injEq] at h
      simp [h]
    | succ i =>
      simp only [List.getElem?_cons_succ] at h
      simp [ih i h]

theorem objectAt_lookup (env : Env) (w : World) (rl : Option String) (b : Bool) (p ref : Nat)
    (obj : ObjTable) (h : objectAt env w rl b p = some (ref, obj)) :
    env.GetObjectByPriority w.ObjectTable rl b p = some ref := by
  unfold objectAt at h
  split at h
  · simp at h
  · rename_i r hr
    split at h
    · simp at h
    · simp only [Option.some.injEq, Prod.mk.injEq] at h
      rw [hr, h.1]

/-- A call of a sweep leaves the configuration of the table as it was. -/
theorem callProcess_config (env : Env) (w : World) (p ref : Nat) (obj : ObjTable) (b : Bool)
    (hget : w.ObjectTable[ref]? = some obj) :
    (callProcess env w p ref obj b).2.ObjectTable.map config = w.ObjectTable.map config := by
  rw [callProcess_table, List.map_set, ProcessConfigObject_config]
  apply set_of_getElem?
  simp [hget]

/-- A call of a sweep leaves every other object as it was. -/
theorem callProcess_other (env : Env) (w : World) (p ref : Nat) (obj : ObjTable) (b : Bool)
    (i : Nat) (hne : ref ≠ i) :
    (callProcess env w p ref obj b).2.ObjectTable[i]? = w.ObjectTable[i]? := by
  rw [callProcess_table, List.getElem?_set_ne hne]

/-- The body of the loop of `RunAllObjects`, with its tests gathered into the
skip rule of the specification. -/
theorem runAllBody_eq_spec (env : Env) (b : Bool) (w : World) (p : Nat) :
    runAllBody env b w p =
      match objectAt env w (if b then some w.sys.CurRunlevel else none) b p with
      | none => (none, w)
      | some (ref, obj) =>
        if !specSkipped b obj && (obj.Started != b) then callProcess env w p ref obj b
        else (none, w) := by
  unfold runAllBody
  rcases objectAt env w (if b then some w.sys.CurRunlevel else none) b p with _ | ⟨ref, obj⟩
  · rfl
  · simp only [specSkipped]
    cases b <;> by_cases he : obj.Enabled = true <;>
      by_cases hh : obj.Opts.HaltCmdOnly = true <;>
      by_cases hs : obj.Started = true <;> simp [he, hh, hs]

/-- The loop of `RunAllObjects` over priorities not met before, from a state
that has the configuration and the runlevel of `w0` and in which the objects
not bound to a priority met before are as in `w0`: every call returns, and
the calls made are those the specification reads off `w0`. The lookup is
taken to read the configuration only (`hstable`) and to bind an object to one
priority at most (`hone`). -/
theorem runAll_sweep_calls (env : Env) (b : Bool) (w0 : World)
    (hfork : ∀ t, 0 < env.fork t)
    (hstable : ∀ t2 rl p, t2.map config = w0.ObjectTable.map config →
      env.GetObjectByPriority t2 rl b p = env.GetObjectByPriority w0.ObjectTable rl b p)
    (hone : ∀ p q ref,
      env.GetObjectByPriority w0.ObjectTable
        (if b then some w0.sys.CurRunlevel else none) b p = some ref →
      env.GetObjectByPriority w0.ObjectTable
        (if b then some w0.sys.CurRunlevel else none) b q = some ref → p = q) :
    ∀ (ps done : List Nat) (w : World), ps.Nodup → (∀ p ∈ ps, p ∉ done) →
      w.ObjectTable.map config = w0.ObjectTable.map config →
      w.sys.CurRunlevel = w0.sys.CurRunlevel →
      (∀ i, (∀ q ∈ done, env.GetObjectByPriority w0.ObjectTable
          (if b then some w0.sys.CurRunlevel else none) b q ≠ some i) →
        w.ObjectTable[i]? = w0.ObjectTable[i]?) →
      (sweep (runAllBody env b) ps w).1 = none ∧
      (sweep (runAllBody env b) ps w).2.calls
        = w.calls ++ ps.filterMap (specCallAt env w0 b) := by
  intro ps
  induction ps with
  | nil =>
    intro done w _ _ _ _ _
    simp [sweep]
  | cons p ps ih =>
    intro done w hnd hdone hcfg hrl hsame
    have hp : p ∉ done := hdone p (List.mem_cons_self p ps)
    have hnd2 : ps.Nodup := (List.nodup_cons.1 hnd).2
    have hpps : p ∉ ps := (List.nodup_cons.1 hnd).1
    have hdone2 : ∀ q ∈ ps, q ∉ p :: done := by
      intro q hq hmem
      rcases List.mem_cons.1 hmem with h | h
      · exact hpps (h ▸ hq)
      · exact hdone q (List.mem_cons_of_mem p hq) h
    -- the lookup sees in `w` what it sees in `w0`
    have hat : objectAt env w (if b then some w.sys.CurRunlevel else none) b p
        = objectAt env w0 (if b then some w0.sys.CurRunlevel else none) b p := by
      unfold objectAt
      rw [hrl, hstable w.ObjectTable _ p hcfg]
      rcases hl : env.GetObjectByPriority w0.ObjectTable
        (if b then some w0.sys.CurRunlevel else none) b p with _ | ref
      · rfl
      · have : w.ObjectTable[ref]? = w0.ObjectTable[ref]? := by
          apply hsame
          intro q hq hlq
          have := hone q p ref hlq hl
          exact hp (this ▸ hq)
        simp only [this]
    rw [sweep, runAllBody_eq_spec, hat]
    rcases hobj : objectAt env w0 (if b then some w0.sys.CurRunlevel else none) b p
      with _ | ⟨ref, obj⟩
    · -- nothing bound to `p`
      have hspec : specCallAt env w0 b p = none := by simp [specCallAt, hobj]
      simp only [List.filterMap_cons, hspec]
      exact ih (p :: done) w hnd2 hdone2 hcfg hrl
        (fun i hi => hsame i (fun q hq => hi q (List.mem_cons_of_mem p hq)))
    · have hl := objectAt_lookup env w0 _ b p ref obj hobj
      have hget : w.ObjectTable[ref]? = some obj := by
        have h1 := objectAt_some env w _ b p ref obj (hat.trans hobj)
        exact h1
      by_cases hc : (!specSkipped b obj && (obj.Started != b)) = true
      · have hspec : specCallAt env w0 b p = some ⟨p, ref, b, w0.sys.CurRunlevel⟩ := by
          simp only [specCallAt, hobj, hc, if_true]
        simp only [hc, if_true, List.filterMap_cons, hspec]
        have hret := callProcess_returns env w p ref obj b hfork
        rcases hX : callProcess env w p ref obj b with ⟨c, w1⟩
        have hcalls := callProcess_calls env w p ref obj b
        have hrl1 := callProcess_runlevel env w p ref obj b
        have hcfg1 := callProcess_config env w p ref obj b hget
        have hoth := fun i hne => callProcess_other env w p ref obj b i hne
        rw [hX] at hret hcalls hrl1 hcfg1 hoth
        simp only at hret hcalls hrl1 hcfg1 hoth
        subst hret
        simp only
        have hih := ih (p :: done) w1 hnd2 hdone2 (hcfg1.trans hcfg) (hrl1.trans hrl)
          (by
            intro i hi
            have hne : ref ≠ i := by
              intro h
              exact hi p (List.mem_cons_self p done) (h ▸ hl)
            rw [hoth i hne]
            exact hsame i (fun q hq => hi q (List.mem_cons_of_mem p hq)))
        refine ⟨hih.1, ?_⟩
        rw [hih.2, hcalls, hrl]
        simp
      · have hspec : specCallAt env w0 b p = none := by
          simp only [specCallAt, hobj, hc]
          simp
        simp only [hc, List.filterMap_cons, hspec]
        exact ih (p :: done) w hnd2 hdone2 hcfg hrl
          (fun i hi => hsame i (fun q hq => hi q (List.mem_cons_of_mem p hq)))

/-- The lookup of the sample environment reads the configuration only. -/
theorem sampleEnv_stable (raw : Int) (readPid : Nat) (killOk : Bool) (t t2 : List ObjTable)
    (rl : Option String) (b : Bool) (p : Nat) (h : t2.map config = t.map config) :
    (sampleEnv raw readPid killOk).GetObjectByPriority t2 rl b p
      = (sampleEnv raw readPid killOk).GetObjectByPriority t rl b p := by
  have key : ∀ l : List ObjTable,
      (sampleEnv raw readPid killOk).GetObjectByPriority l rl b p =
        ((l.map config).dropLast).findIdx? (fun obj => decide (priorityOf b obj = p) &&
          (match rl with
           | none => true
           | some r => decide (r ∈ obj.ObjectRunlevels))) := by
    intro l
    rw [← List.map_dropLast, List.findIdx?_map]
    rfl
  rw [key t2, key t, h]

/-- The lookup of the sample environment binds a node to its own priority only. -/
theorem sampleEnv_one (raw : Int) (readPid : Nat) (killOk : Bool) (t : List ObjTable)
    (rl : Option String) (b : Bool) (p q ref : Nat)
    (hp : (sampleEnv raw readPid killOk).GetObjectByPriority t rl b p = some ref)
    (hq : (sampleEnv raw readPid killOk).GetObjectByPriority t rl b q = some ref) : p = q := by
  simp only [sampleEnv] at hp hq
  rw [List.findIdx?_eq_some_iff_getElem] at hp hq
  obtain ⟨h1, hp1, _⟩ := hp
  obtain ⟨_, hq1, _⟩ := hq
  simp only [Bool.and_eq_true, decide_eq_true_eq] at hp1 hq1
  rw [← hp1.1, ← hq1.1]

/-- C15: let the highest priority of the direction be at least `1`, let every
`vfork` answer with a child pid (so that every call hands back an outcome),
and let the lookup `GetObjectByPriority` read the configuration of the table
only and bind an object to one priority at most. Then `RunAllObjects` returns
`SUCCESS` with `CurrentBootMode` equal to `BOOT_NEUTRAL`, and the calls of
`ProcessConfigObject` it made (all with `PrintStatus` set) are exactly, for
`p` from `1` to the highest priority in ascending order, the record bound to
`p` if it is not skipped and its `Started` flag disagrees with the direction,
where a record is skipped iff it is disabled when starting, or disabled and
`HaltCmdOnly` when stopping, or `HaltCmdOnly` when starting. No outcome of a
call enters this list; a disabled record that is not `HaltCmdOnly` is not
skipped when stopping. -/
theorem C15_run_all_calls (env : Env) (w : World) (b : Bool)
    (hmax : 1 ≤ env.GetHighestPriority w.ObjectTable b)
    (hfork : ∀ t, 0 < env.fork t)
    (hstable : ∀ t2 rl p, t2.map config = w.ObjectTable.map config →
      env.GetObjectByPriority t2 rl b p = env.GetObjectByPriority w.ObjectTable rl b p)
    (hone : ∀ p q ref,
      env.GetObjectByPriority w.ObjectTable
        (if b then some w.sys.CurRunlevel else none) b p = some ref →
      env.GetObjectByPriority w.ObjectTable
        (if b then some w.sys.CurRunlevel else none) b q = some ref → p = q) :
    (RunAllObjects env w b).1 = .ret .SUCCESS ∧
    (RunAllObjects env w b).2.calls = w.calls ++ specRunAllCalls env w b ∧
    (RunAllObjects env w b).2.sys.CurrentBootMode = .BOOT_NEUTRAL ∧
    (∀ obj : ObjTable, obj.Enabled = false → obj.Opts.HaltCmdOnly = false →
      specSkipped false obj = false) := by
  have hnd : (List.range' 1 (env.GetHighestPriority w.ObjectTable b)).Nodup :=
    (List.pairwise_lt_range' 1 _).imp (fun h => Nat.ne_of_lt h)
  have hsw := runAll_sweep_calls env b w hfork hstable hone
    (List.range' 1 (env.GetHighestPriority w.ObjectTable b)) []
    (w.setBootMode (if b then .BOOT_BOOTUP else .BOOT_SHUTDOWN)) hnd
    (fun _ _ h => by simp at h) rfl rfl (fun _ _ => rfl)
  have h0 : ¬ (env.GetHighestPriority w.ObjectTable b = 0 ∧ b = true) := by
    intro h
    omega
  unfold RunAllObjects
  simp only
  rw [if_neg h0]
  rcases hX : sweep (runAllBody env b) (List.range' 1 (env.GetHighestPriority w.ObjectTable b))
    (w.setBootMode (if b then .BOOT_BOOTUP else .BOOT_SHUTDOWN)) with ⟨c, w2⟩
  rw [hX] at hsw
  obtain ⟨hc, hcalls⟩ := hsw
  simp only at hc hcalls
  subst hc
  refine ⟨rfl, ?_, rfl, ?_⟩
  · simp only [World.setBootMode, specRunAllCalls] at hcalls ⊢
    exact hcalls
  · intro obj he hh
    simp [specSkipped, he, hh]

/-- C15, at a concrete input: a stop sweep over a disabled running record
(priority `1`, its stop command fails) and a running record of priority `2`. -/
theorem C15_run_all_calls_witness :
    (RunAllObjects (sampleEnv 256 0 true)
      (sampleWorld [{ runningObj .STOP_COMMAND with Enabled := false },
        { runningObj .STOP_NONE with ObjectStopPriority := 2 }]) false).1 = .ret .SUCCESS ∧
    (RunAllObjects (sampleEnv 256 0 true)
      (sampleWorld [{ runningObj .STOP_COMMAND with Enabled := false },
        { runningObj .STOP_NONE with ObjectStopPriority := 2 }]) false).2.calls
      = (sampleWorld [{ runningObj .STOP_COMMAND with Enabled := false },
          { runningObj .STOP_NONE with ObjectStopPriority := 2 }]).calls ++
        specRunAllCalls (sampleEnv 256 0 true)
          (sampleWorld [{ runningObj .STOP_COMMAND with Enabled := false },
            { runningObj .STOP_NONE with ObjectStopPriority := 2 }]) false :=
  ⟨(C15_run_all_calls (sampleEnv 256 0 true)
      (sampleWorld [{ runningObj .STOP_COMMAND with Enabled := false },
        { runningObj .STOP_NONE with ObjectStopPriority := 2 }]) false
      (by decide) (fun _ => show (0 : Int) < 100 by decide)
      (fun t2 rl p h => sampleEnv_stable 256 0 true _ t2 rl false p h)
      (fun p q ref hp hq => sampleEnv_one 256 0 true _ _ false p q ref hp hq)).1,
   (C15_run_all_calls (sampleEnv 256 0 true)
      (sampleWorld [{ runningObj .STOP_COMMAND with Enabled := false },
        { runningObj .STOP_NONE with ObjectStopPriority := 2 }]) false
      (by decide) (fun _ => show (0 : Int) < 100 by decide)
      (fun t2 rl p h => sampleEnv_stable 256 0 true _ t2 rl false p h)
      (fun p q ref hp hq => sampleEnv_one 256 0 true _ _ false p q ref hp hq)).2.1⟩

/-- The sample stop sweep, evaluated: the disabled running record is stopped
first (and stays started, as its stop command fails), then the second one. -/
theorem sample_stop_sweep :
    (RunAllObjects (sampleEnv 256 0 true)
      (sampleWorld [{ runningObj .STOP_COMMAND with Enabled := false },
        { runningObj .STOP_NONE with ObjectStopPriority := 2 }]) false).2.calls
      = [⟨1, 0, false, "default"⟩, ⟨2, 1, false, "default"⟩] ∧
    statusReports (RunAllObjects (sampleEnv 256 0 true)
      (sampleWorld [{ runningObj .STOP_COMMAND with Enabled := false },
        { runningObj .STOP_NONE with ObjectStopPriority := 2 }]) false).2.sys.trace
      = [.FAILURE] ∧
    (RunAllObjects (sampleEnv 256 0 true)
      (sampleWorld [{ runningObj .STOP_COMMAND with Enabled := false },
        { runningObj .STOP_NONE with ObjectStopPriority := 2 }]) false).2.ObjectTable.map
        ObjTable.Started = [true, false, false] := by
  decide

/-! ## One record through a full sweep -/

theorem runAllBody_keeps_config (env : Env) (b : Bool) (w : World) (p : Nat) :
    (runAllBody env b w p).2.ObjectTable.map config = w.ObjectTable.map config ∧
    (runAllBody env b w p).2.sys.CurRunlevel = w.sys.CurRunlevel := by
  rw [runAllBody_eq_spec]
  rcases hobj : objectAt env w (if b then some w.sys.CurRunlevel else none) b p
    with _ | ⟨ref, obj⟩
  · exact ⟨rfl, rfl⟩
  · simp only
    split_ifs
    · exact ⟨callProcess_config env w p ref obj b (objectAt_some env w _ b p ref obj hobj),
        callProcess_runlevel env w p ref obj b⟩
    · exact ⟨rfl, rfl⟩

theorem runAllBody_returns (env : Env) (b : Bool) (hfork : ∀ t, 0 < env.fork t) (w : World)
    (p : Nat) : (runAllBody env b w p).1 = none := by
  rw [runAllBody_eq_spec]
  rcases objectAt env w (if b then some w.sys.CurRunlevel else none) b p with _ | ⟨ref, obj⟩
  · rfl
  · simp only
    split_ifs
    · exact callProcess_returns env w p ref obj b hfork
    · rfl

/-- A pass of the loop of `RunAllObjects` in direction `b` leaves a record
whose `Started` flag already agrees with `b` as it is. -/
theorem runAllBody_keeps_flag (env : Env) (b : Bool) (w : World) (p ref : Nat)
    (h : FlagAt w ref b) : FlagAt (runAllBody env b w p).2 ref b := by
  rw [runAllBody_eq_spec]
  rcases hobj : objectAt env w (if b then some w.sys.CurRunlevel else none) b p
    with _ | ⟨r, obj⟩
  · exact h
  · simp only
    split_ifs with hc
    · obtain ⟨o, ho, hs⟩ := h
      have hget := objectAt_some env w _ b p r obj hobj
      have hne : r ≠ ref := by
        intro heq
        rw [heq, ho] at hget
        simp only [Option.some.injEq] at hget
        rw [← hget, hs] at hc
        simp at hc
      exact ⟨o, by rw [callProcess_other env w p r obj b ref hne]; exact ho, hs⟩
    · exact h

/-- A pass of the loop of `RunAllObjects` in direction `b` at a priority the
record behind `ref` is bound to brings its `Started` flag to `b`, when the
record is not skipped and a call on it in direction `b` does so. -/
theorem runAllBody_sets_flag (env : Env) (b : Bool) (w : World) (p ref : Nat) (o : ObjTable)
    (hobj : objectAt env w (if b then some w.sys.CurRunlevel else none) b p = some (ref, o))
    (hskip : specSkipped b o = false)
    (hproc : (ProcessConfigObject env w.sys ref o b true).2.1.Started = b) :
    FlagAt (runAllBody env b w p).2 ref b := by
  have hget := objectAt_some env w _ b p ref o hobj
  have hlt : ref < w.ObjectTable.length := by
    by_contra hge
    rw [List.getElem?_eq_none (by omega)] at hget
    simp at hget
  rw [runAllBody_eq_spec, hobj]
  simp only
  split_ifs with hc
  · refine ⟨(ProcessConfigObject env w.sys ref o b true).2.1, ?_, hproc⟩
    rw [callProcess_table]
    exact List.getElem?_set_self hlt
  · refine ⟨o, hget, ?_⟩
    simp only [hskip, Bool.not_false, Bool.true_and, bne_iff_ne, ne_eq, Decidable.not_not]
      at hc
    exact hc

/-- The loop of `RunAllObjects` in direction `b`, from a state with the
configuration and the runlevel of `w0`: if it passes a priority the record
behind `ref` is bound to, or that record has its `Started` flag at `b`
already, then it ends with the flag at `b`. -/
theorem sweep_brings_flag (env : Env) (b : Bool) (w0 : World) (ref pstar : Nat)
    (obj0 : ObjTable) (hfork : ∀ t, 0 < env.fork t)
    (hstable : ∀ t2 rl p, t2.map config = w0.ObjectTable.map config →
      env.GetObjectByPriority t2 rl b p = env.GetObjectByPriority w0.ObjectTable rl b p)
    (hobj0 : w0.ObjectTable[ref]? = some obj0)
    (hbound : env.GetObjectByPriority w0.ObjectTable
      (if b then some w0.sys.CurRunlevel else none) b pstar = some ref)
    (hgood : ∀ (s : Sys) (o : ObjTable), config o = config obj0 →
      specSkipped b o = false ∧ (ProcessConfigObject env s ref o b true).2.1.Started = b) :
    ∀ (ps : List Nat) (w : World),
      w.ObjectTable.map config = w0.ObjectTable.map config →
      w.sys.CurRunlevel = w0.sys.CurRunlevel →
      (pstar ∈ ps ∨ FlagAt w ref b) →
      (sweep (runAllBody env b) ps w).1 = none ∧
      (sweep (runAllBody env b) ps w).2.ObjectTable.map config
        = w0.ObjectTable.map config ∧
      (sweep (runAllBody env b) ps w).2.sys.CurRunlevel = w0.sys.CurRunlevel ∧
      FlagAt (sweep (runAllBody env b) ps w).2 ref b := by
  intro ps
  induction ps with
  | nil =>
    intro w hcfg hrl h
    rcases h with h | h
    · simp at h
    · exact ⟨rfl, hcfg, hrl, h⟩
  | cons p ps ih =>
    intro w hcfg hrl h
    have hret := runAllBody_returns env b hfork w p
    obtain ⟨hcfg1, hrl1⟩ := runAllBody_keeps_config env b w p
    have hflag : pstar ∈ ps ∨ FlagAt (runAllBody env b w p).2 ref b := by
      rcases h with h | h
      · rcases List.mem_cons.1 h with heq | hmem
        · right
          subst heq
          have hmap : (w.ObjectTable.map config)[ref]? = some (config obj0) := by
            rw [hcfg]
            simp [hobj0]
          rw [List.getElem?_map] at hmap
          obtain ⟨o, ho, hco⟩ := Option.map_eq_some'.1 hmap
          have hat : objectAt env w (if b then some w.sys.CurRunlevel else none) b pstar
              = some (ref, o) := by
            unfold objectAt
            rw [hrl, hstable w.ObjectTable _ pstar hcfg, hbound]
            simp only [ho]
          obtain ⟨hskip, hproc⟩ := hgood w.sys o hco
          exact runAllBody_sets_flag env b w pstar ref o hat hskip hproc
        · exact Or.inl hmem
      · exact Or.inr (runAllBody_keeps_flag env b w p ref h)
    rw [sweep]
    rcases hX : runAllBody env b w p with ⟨c, w1⟩
    rw [hX] at hret hcfg1 hrl1 hflag
    simp only at hret hcfg1 hrl1 hflag
    subst hret
    exact ih w1 (hcfg1.trans hcfg) (hrl1.trans hrl) hflag

/-- A start call on a record with a start command, not `HaltCmdOnly`, whose
launches end with exit code `0`, leaves the record started. -/
theorem start_marks_started (env : Env) (s : Sys) (ref : Nat) (o : ObjTable)
    (hcmd : o.ObjectStartCommand ≠ "") (hhalt : o.Opts.HaltCmdOnly = false)
    (hfork : ∀ t, 0 < env.fork t)
    (hS : env.rStatusValue .SUCCESS ≠ 0) (hN : env.rStatusValue .NOTIFICATION ≠ 0)
    (hsucc : ∀ t pid, t.CurrentTask.Node = some ref → WEXITSTATUS (env.waitpid t pid) = 0) :
    (ProcessConfigObject env s ref o true true).2.1.Started = true ∧
    ∃ st, (ProcessConfigObject env s ref o true true).1 = .ret st ∧
      (st = .SUCCESS ∨ st = .NOTIFICATION) := by
  by_cases hnw : o.Opts.NoWait = true
  · simp [ProcessConfigObject, hcmd, hhalt, hnw, truthy, hN]
  · have hnw2 : o.Opts.NoWait = false := by simpa using hnw
    have hE := ExecuteConfigObject_parent env ((printIf true s o true).log .fflush) ref o true
      (hfork _)
    have hw := hsucc
      (parentAfterFork
        ((forkState env ((printIf true s o true).log .fflush)).log
          (.fork (env.fork (forkState env ((printIf true s o true).log .fflush)))))
        ref o (env.fork (forkState env ((printIf true s o true).log .fflush))))
      (env.fork (forkState env ((printIf true s o true).log .fflush)))
      (by simp [parentAfterFork, hnw2, Sys.log])
    have hc : classifyExit 0 = .SUCCESS := by decide
    simp only [ProcessConfigObject, hcmd, hhalt, hnw2, hE, parentPath, hw, hc]
    simp [truthy, hS]

/-- `RunAllObjects` in direction `b`, from a state with the configuration and
the runlevel of `w0`: when the record behind `ref` is bound to a priority
between `1` and the highest one, the sweep returns `SUCCESS` and ends with
the `Started` flag of that record at `b`. -/
theorem RunAllObjects_brings_flag (env : Env) (b : Bool) (w0 w : World) (ref pstar : Nat)
    (obj0 : ObjTable) (hfork : ∀ t, 0 < env.fork t)
    (hstable : ∀ t2 rl p, t2.map config = w0.ObjectTable.map config →
      env.GetObjectByPriority t2 rl b p = env.GetObjectByPriority w0.ObjectTable rl b p)
    (hobj0 : w0.ObjectTable[ref]? = some obj0)
    (hbound : env.GetObjectByPriority w0.ObjectTable
      (if b then some w0.sys.CurRunlevel else none) b pstar = some ref)
    (hgood : ∀ (s : Sys) (o : ObjTable), config o = config obj0 →
      specSkipped b o = false ∧ (ProcessConfigObject env s ref o b true).2.1.Started = b)
    (hcfg : w.ObjectTable.map config = w0.ObjectTable.map config)
    (hrl : w.sys.CurRunlevel = w0.sys.CurRunlevel)
    (hp : 1 ≤ pstar ∧ pstar ≤ env.GetHighestPriority w.ObjectTable b) :
    (RunAllObjects env w b).1 = .ret .SUCCESS ∧
    (RunAllObjects env w b).2.ObjectTable.map config = w0.ObjectTable.map config ∧
    (RunAllObjects env w b).2.sys.CurRunlevel = w0.sys.CurRunlevel ∧
    FlagAt (RunAllObjects env w b).2 ref b := by
  have hmem : pstar ∈ List.range' 1 (env.GetHighestPriority w.ObjectTable b) := by
    rw [List.mem_range'_1]
    omega
  have hsw := sweep_brings_flag env b w0 ref pstar obj0 hfork hstable hobj0 hbound hgood
    (List.range' 1 (env.GetHighestPriority w.ObjectTable b))
    (w.setBootMode (if b then .BOOT_BOOTUP else .BOOT_SHUTDOWN)) hcfg hrl (Or.inl hmem)
  have h0 : ¬ (env.GetHighestPriority w.ObjectTable b = 0 ∧ b = true) := by
    intro h
    omega
  unfold RunAllObjects
  simp only
  rw [if_neg h0]
  rcases hX : sweep (runAllBody env b) (List.range' 1 (env.GetHighestPriority w.ObjectTable b))
    (w.setBootMode (if b then .BOOT_BOOTUP else .BOOT_SHUTDOWN)) with ⟨c, w2⟩
  rw [hX] at hsw
  obtain ⟨hc, hcfg2, hrl2, hflag⟩ := hsw
  simp only at hc hcfg2 hrl2 hflag
  subst hc
  exact ⟨rfl, hcfg2, hrl2, hflag⟩

/-- C16: take a table with a record that is enabled, not `HaltCmdOnly`, with a
non-empty start command whose launches end with exit code `0` (outcome
`SUCCESS`) and with stop mode `STOP_NONE`, bound to a start priority between
`1` and the highest one in the current runlevel and to a stop priority
between `1` and the highest one. Let every `vfork` answer with a child pid
and let the lookups read the configuration of the table only. Then
`RunAllObjects` in start mode returns `SUCCESS` and leaves the record started,
and `RunAllObjects` in stop mode, run next, returns `SUCCESS` and leaves it
not started (whether or not the record was started at the outset). -/
theorem C16_start_stop_round_trip (env : Env) (w : World) (ref p1 p2 : Nat) (obj : ObjTable)
    (hobj : w.ObjectTable[ref]? = some obj)
    (hen : obj.Enabled = true) (hhalt : obj.Opts.HaltCmdOnly = false)
    (hcmd : obj.ObjectStartCommand ≠ "") (hmode : obj.Opts.StopMode = .STOP_NONE)
    (hp1 : 1 ≤ p1 ∧ p1 ≤ env.GetHighestPriority w.ObjectTable true)
    (hb1 : env.GetObjectByPriority w.ObjectTable (some w.sys.CurRunlevel) true p1 = some ref)
    (hp2 : 1 ≤ p2 ∧ p2 ≤ env.GetHighestPriority w.ObjectTable false)
    (hb2 : env.GetObjectByPriority w.ObjectTable none false p2 = some ref)
    (hsucc : ∀ t pid, t.CurrentTask.Node = some ref → WEXITSTATUS (env.waitpid t pid) = 0)
    (hfork : ∀ t, 0 < env.fork t)
    (hS : env.rStatusValue .SUCCESS ≠ 0) (hN : env.rStatusValue .NOTIFICATION ≠ 0)
    (hstable : ∀ t2 rl b p, t2.map config = w.ObjectTable.map config →
      env.GetObjectByPriority t2 rl b p = env.GetObjectByPriority w.ObjectTable rl b p)
    (hstableMax : ∀ t2 b, t2.map config = w.ObjectTable.map config →
      env.GetHighestPriority t2 b = env.GetHighestPriority w.ObjectTable b) :
    (RunAllObjects env w true).1 = .ret .SUCCESS ∧
    FlagAt (RunAllObjects env w true).2 ref true ∧
    (RunAllObjects env (RunAllObjects env w true).2 false).1 = .ret .SUCCESS ∧
    FlagAt (RunAllObjects env (RunAllObjects env w true).2 false).2 ref false := by
  have hfields : ∀ o : ObjTable, config o = config obj →
      o.Enabled = true ∧ o.Opts.HaltCmdOnly = false ∧ o.ObjectStartCommand ≠ "" ∧
        o.Opts.StopMode = .STOP_NONE := by
    intro o ho
    have h1 : o.Enabled = obj.Enabled := by
      have := congrArg ObjTable.Enabled ho
      simpa [config] using this
    have h2 : o.Opts = obj.Opts := by
      have := congrArg ObjTable.Opts ho
      simpa [config] using this
    have h3 : o.ObjectStartCommand = obj.ObjectStartCommand := by
      have := congrArg ObjTable.ObjectStartCommand ho
      simpa [config] using this
    rw [h1, h2, h3]
    exact ⟨hen, hhalt, hcmd, hmode⟩
  have hstart := RunAllObjects_brings_flag env true w w ref p1 obj hfork
    (fun t2 rl p h => hstable t2 rl true p h) hobj hb1
    (by
      intro s o ho
      obtain ⟨he, hh, hc, _⟩ := hfields o ho
      exact ⟨by simp [specSkipped, he, hh],
        (start_marks_started env s ref o hc hh hfork hS hN hsucc).1⟩)
    rfl rfl hp1
  obtain ⟨hr1, hcfg1, hrl1, hflag1⟩ := hstart
  have hstop := RunAllObjects_brings_flag env false w (RunAllObjects env w true).2 ref p2 obj
    hfork (fun t2 rl p h => hstable t2 rl false p h) hobj hb2
    (by
      intro s o ho
      obtain ⟨he, hh, _, hm⟩ := hfields o ho
      exact ⟨by simp [specSkipped, he, hh], by simp [ProcessConfigObject, hm]⟩)
    hcfg1 hrl1 (by rw [hstableMax _ false hcfg1]; exact hp2)
  exact ⟨hr1, hflag1, hstop.1, hstop.2.2.2⟩

/-- The highest priority of the sample environment reads the configuration only. -/
theorem sampleEnv_stableMax (raw : Int) (readPid : Nat) (killOk : Bool)
    (t t2 : List ObjTable) (b : Bool) (h : t2.map config = t.map config) :
    (sampleEnv raw readPid killOk).GetHighestPriority t2 b
      = (sampleEnv raw readPid killOk).GetHighestPriority t b := by
  have key : ∀ l : List ObjTable,
      (sampleEnv raw readPid killOk).GetHighestPriority l b =
        (((l.map config).dropLast).map (priorityOf b)).foldl max 0 := by
    intro l
    rw [← List.map_dropLast, List.map_map]
    rfl
  rw [key t2, key t, h]

/-- C16, at the input of the scenario: one enabled record with start command
`true`, stop mode `STOP_NONE`, priority `1` in both directions, runlevel
`default`; the command exits with code `0`. -/
theorem C16_start_stop_round_trip_witness :
    (RunAllObjects (sampleEnv 0 0 true)
      (sampleWorld [sampleObj "true" (plainOpts .STOP_NONE)]) true).1 = .ret .SUCCESS ∧
    FlagAt (RunAllObjects (sampleEnv 0 0 true)
      (sampleWorld [sampleObj "true" (plainOpts .STOP_NONE)]) true).2 0 true ∧
    (RunAllObjects (sampleEnv 0 0 true) (RunAllObjects (sampleEnv 0 0 true)
      (sampleWorld [sampleObj "true" (plainOpts .STOP_NONE)]) true).2 false).1
        = .ret .SUCCESS ∧
    FlagAt (RunAllObjects (sampleEnv 0 0 true) (RunAllObjects (sampleEnv 0 0 true)
      (sampleWorld [sampleObj "true" (plainOpts .STOP_NONE)]) true).2 false).2 0 false :=
  C16_start_stop_round_trip (sampleEnv 0 0 true)
    (sampleWorld [sampleObj "true" (plainOpts .STOP_NONE)]) 0 1 1
    (sampleObj "true" (plainOpts .STOP_NONE))
    (by decide) (by decide) (by decide) (by decide) (by decide)
    (by decide) (by decide) (by decide) (by decide)
    (fun _ _ _ => show WEXITSTATUS 0 = 0 by decide)
    (fun _ => show (0 : Int) < 100 by decide)
    (by decide) (by decide)
    (fun t2 rl b p h => sampleEnv_stable 0 0 true _ t2 rl b p h)
    (fun t2 b h => sampleEnv_stableMax 0 0 true _ t2 b h)

/-- The scenario, evaluated: after the start sweep the record is started with
one `SUCCESS` reported; after the stop sweep it is not started. -/
theorem sample_round_trip :
    (RunAllObjects (sampleEnv 0 0 true)
      (sampleWorld [sampleObj "true" (plainOpts .STOP_NONE)]) true).2.ObjectTable.map
        ObjTable.Started = [true, false] ∧
    statusReports (RunAllObjects (sampleEnv 0 0 true)
      (sampleWorld [sampleObj "true" (plainOpts .STOP_NONE)]) true).2.sys.trace
        = [.SUCCESS] ∧
    (RunAllObjects (sampleEnv 0 0 true) (RunAllObjects (sampleEnv 0 0 true)
      (sampleWorld [sampleObj "true" (plainOpts .STOP_NONE)]) true).2 false).2.ObjectTable.map
        ObjTable.Started = [false, false] := by
  decide

end Epoch
